import Mathlib

/-!
A verification development for the consensus core of this repository: a shallow
embedding, in Lean, of the double-signing-safe signer, the validator-set update
logic, and the consensus state machine, together with theorems checking the
natural-language specification against the embedded code.

Conventions of the embedding:
- byte strings and hashes become natural numbers (or lists of naturals);
- Go nil pointers become Option, with none for nil;
- machine integers become Nat or Int (the values involved are small and
  non-negative almost everywhere; int64 overflow is out of scope);
- wall-clock instants become Int (milliseconds); the zero time.Time value is
  Option.none;
- panics (PanicSanity / PanicConsensus / PanicCrisis) abort the transition and
  are represented by the error side of Except;
- side effects (scheduled timeouts, internal messages, saved blocks) are
  recorded in lists inside the state.
-/

namespace Tendermint

/-- Header of a block part set: number of parts and the merkle root hash.
Hashes are abstracted as natural numbers throughout this development. -/
structure PartSetHeader where
  total : Nat
  hash : Nat
deriving DecidableEq, Repr

/-- Modelled from the spec: a part set being filled in incrementally (types.PartSet
is not under src). Only the header and how many parts are present matter to the
claims, so the individual parts are abstracted into a count. -/
structure PartSet where
  header : PartSetHeader
  partsCount : Nat
deriving DecidableEq, Repr

/-- Modelled from the spec: types.NewPartSetFromHeader builds an empty part set
from a header, ready to fetch the parts. -/
def newPartSetFromHeader (h : PartSetHeader) : PartSet :=
  { header := h, partsCount := 0 }

/-- Modelled from the spec: the nil-safe PartSet.Header accessor; the zero header
stands for the empty PartSetHeader value. -/
def PartSet.headerOf : Option PartSet → PartSetHeader
  | some ps => ps.header
  | none => { total := 0, hash := 0 }

/-- Modelled from the spec: PartSet.HasHeader, nil-safe (a nil part set has no
header). -/
def PartSet.hasHeaderOpt : Option PartSet → PartSetHeader → Bool
  | some ps, h => decide (ps.header = h)
  | none, _ => false

/-- A block. The hash abstracts the header hash; valid abstracts the outcome of
application validation (State.ExecBlock run by ConsensusState.stageBlock). -/
structure Block where
  height : Nat
  hash : Nat
  partsHeader : PartSetHeader
  valid : Bool
deriving DecidableEq, Repr

/-- Modelled from the spec: Block.HashesTo, nil-safe on both sides; an empty
(nil) hash never matches. -/
def Block.hashesTo : Option Block → Option Nat → Bool
  | some b, some h => decide (b.hash = h)
  | _, _ => false

/-- The two vote types of the protocol. -/
inductive VoteType
  | prevote
  | precommit
deriving DecidableEq, Repr

/-- A vote as carried on the wire: height, round, type, the voted block hash
(none for a nil vote) and the parts header of the voted block. -/
structure Vote where
  height : Nat
  round : Nat
  vtype : VoteType
  blockHash : Option Nat
  partsHeader : PartSetHeader
deriving DecidableEq, Repr

/-- Modelled from the spec: a validator of the active set, an entry of the
ordered (Address, PubKey, VotingPower) list together with its proposer-rotation
accumulator. Public keys are abstracted away; the address stands for both. -/
structure Validator where
  address : Nat
  votingPower : Nat
  accum : Int
deriving DecidableEq, Repr

/-- Modelled from the spec: the validator set, an ordered list of validators. -/
structure ValidatorSet where
  vals : List Validator
deriving DecidableEq, Repr

/-- Modelled from the spec: total voting power TVP = sum of the powers. -/
def ValidatorSet.totalVotingPower (vs : ValidatorSet) : Nat :=
  vs.vals.foldl (fun acc v => acc + v.votingPower) 0

/-- Index of the validator with the given address, if present. -/
def ValidatorSet.indexOfAddress (vs : ValidatorSet) (a : Nat) : Option Nat :=
  vs.vals.findIdx? (fun v => decide (v.address = a))

/-- Modelled from the spec: ValidatorSet.HasAddress. -/
def ValidatorSet.hasAddress (vs : ValidatorSet) (a : Nat) : Bool :=
  (vs.indexOfAddress a).isSome

/-- Modelled from the spec: ValidatorSet.GetByAddress (the validator record). -/
def ValidatorSet.getByAddress (vs : ValidatorSet) (a : Nat) : Option Validator :=
  vs.vals.find? (fun v => decide (v.address = a))

/-- Index of the entry with the largest accumulator (first such on ties). -/
def argmaxAccumAux : List Validator → Nat → Option (Nat × Int) → Option (Nat × Int)
  | [], _, best => best
  | v :: rest, i, best =>
      let best2 := match best with
        | none => some (i, v.accum)
        | some (bi, ba) => if ba < v.accum then some (i, v.accum) else some (bi, ba)
      argmaxAccumAux rest (i + 1) best2

/-- Index of the validator with the largest accumulator, if the set is non-empty. -/
def argmaxAccum (l : List Validator) : Option Nat :=
  (argmaxAccumAux l 0 none).map Prod.fst

/-- Modelled from the spec: the deterministic proposer — the validator the
accum-incrementing rotation currently favours (largest accumulator). -/
def ValidatorSet.proposer (vs : ValidatorSet) : Option Validator :=
  (argmaxAccum vs.vals).bind (fun i => vs.vals.get? i)

/-- Modelled from the spec: one round of the accum-incrementing rotation —
every validator's accumulator grows by its voting power, then the proposer
(largest accumulator) pays back the total voting power. -/
def ValidatorSet.incrementAccumOnce (vs : ValidatorSet) : ValidatorSet :=
  let tvp : Int := (vs.totalVotingPower : Int)
  let bumped := vs.vals.map (fun v => { v with accum := v.accum + (v.votingPower : Int) })
  match argmaxAccum bumped with
  | none => { vals := bumped }
  | some i =>
      { vals := bumped.mapIdx (fun j v => if j = i then { v with accum := v.accum - tvp } else v) }

/-- Modelled from the spec: IncrementAccum(n) advances the rotation by n rounds. -/
def ValidatorSet.incrementAccum (vs : ValidatorSet) : Nat → ValidatorSet
  | 0 => vs
  | n + 1 => (vs.incrementAccum n).incrementAccumOnce

/-- Outcomes of adding a vote to a vote set that are reported as errors. -/
inductive VoteErr
  | unexpectedStep
  | invalidIndex
  | conflictingSignature
deriving DecidableEq, Repr

/-- Modelled from the spec: a VoteSet for one (height, round, type): for each
validator index at most one vote (conflicting pairs are rejected and reported,
the evidence bookkeeping is abstracted away). -/
structure VoteSet where
  height : Nat
  round : Nat
  vtype : VoteType
  valSet : ValidatorSet
  votes : List (Option Vote)
deriving DecidableEq, Repr

/-- Modelled from the spec: a fresh empty vote set over the given validators. -/
def newVoteSet (h r : Nat) (t : VoteType) (vs : ValidatorSet) : VoteSet :=
  { height := h, round := r, vtype := t, valSet := vs
    votes := List.replicate vs.vals.length none }

/-- Voting power of the validators whose recorded vote satisfies the predicate. -/
def VoteSet.tallyIf (s : VoteSet) (p : Vote → Bool) : Nat :=
  (List.zip s.valSet.vals s.votes).foldl
    (fun acc e =>
      match e.snd with
      | some w => if p w then acc + e.fst.votingPower else acc
      | none => acc)
    0

/-- Voting power tallied for one BlockID (hash and parts header). -/
def VoteSet.tallyFor (s : VoteSet) (bh : Option Nat) (ph : PartSetHeader) : Nat :=
  s.tallyIf (fun w => decide (w.blockHash = bh) && decide (w.partsHeader = ph))

/-- Modelled from the spec: VoteSet.TwoThirdsMajority — the BlockID (possibly the
nil BlockID) whose tallied power strictly exceeds two thirds of the total voting
power, if any. -/
def VoteSet.twoThirdsMajority (s : VoteSet) : Option (Option Nat × PartSetHeader) :=
  s.votes.findSome? (fun ov =>
    match ov with
    | some w =>
        if 3 * s.tallyFor w.blockHash w.partsHeader > 2 * s.valSet.totalVotingPower then
          some (w.blockHash, w.partsHeader)
        else none
    | none => none)

/-- Modelled from the spec: VoteSet.HasTwoThirdsMajority. -/
def VoteSet.hasTwoThirdsMajority (s : VoteSet) : Bool :=
  s.twoThirdsMajority.isSome

/-- Modelled from the spec: VoteSet.HasTwoThirdsAny — the combined power across
all BlockIDs (nil included) strictly exceeds two thirds of the total power. -/
def VoteSet.hasTwoThirdsAny (s : VoteSet) : Bool :=
  decide (3 * s.tallyIf (fun _ => true) > 2 * s.valSet.totalVotingPower)

/-- Modelled from the spec: VoteSet.AddByIndex. Validates the height/round/type
of the vote against the set and the validator index, rejects conflicting votes
(same validator, different vote) and ignores exact duplicates. Signature checks
are abstracted away (votes arrive pre-authenticated). Returns the new set,
whether the vote was added, and the error if any. -/
def VoteSet.addByIndex (s : VoteSet) (valIndex : Nat) (v : Vote) :
    VoteSet × Bool × Option VoteErr :=
  if ¬ (v.height = s.height ∧ v.round = s.round ∧ v.vtype = s.vtype) then
    (s, false, some .unexpectedStep)
  else
    match s.votes.get? valIndex with
    | none => (s, false, some .invalidIndex)
    | some none => ({ s with votes := s.votes.set valIndex (some v) }, true, none)
    | some (some w) =>
        if w = v then (s, false, none) else (s, false, some .conflictingSignature)

/-- Modelled from the spec: the per-height collection of vote sets, round →
(Prevotes, Precommits), with the current round for pre-allocation. Only the
vote sets that received votes are stored; absent entries are empty. -/
structure HeightVoteSet where
  height : Nat
  round : Nat
  valSet : ValidatorSet
  sets : List ((Nat × VoteType) × VoteSet)
deriving DecidableEq, Repr

/-- Modelled from the spec: a fresh HeightVoteSet for a new height. -/
def newHeightVoteSet (h : Nat) (vs : ValidatorSet) : HeightVoteSet :=
  { height := h, round := 0, valSet := vs, sets := [] }

/-- The vote set of a given round and type (empty when none was stored). -/
def HeightVoteSet.getVoteSet (hvs : HeightVoteSet) (r : Nat) (t : VoteType) : VoteSet :=
  match hvs.sets.find? (fun e => decide (e.fst = (r, t))) with
  | some e => e.snd
  | none => newVoteSet hvs.height r t hvs.valSet

/-- Modelled from the spec: HeightVoteSet.Prevotes(round). -/
def HeightVoteSet.prevotes (hvs : HeightVoteSet) (r : Nat) : VoteSet :=
  hvs.getVoteSet r .prevote

/-- Modelled from the spec: HeightVoteSet.Precommits(round). -/
def HeightVoteSet.precommits (hvs : HeightVoteSet) (r : Nat) : VoteSet :=
  hvs.getVoteSet r .precommit

/-- Store back the vote set of a given round and type. -/
def HeightVoteSet.setVoteSet (hvs : HeightVoteSet) (r : Nat) (t : VoteType)
    (vs : VoteSet) : HeightVoteSet :=
  if hvs.sets.any (fun e => decide (e.fst = (r, t))) then
    { hvs with sets := hvs.sets.map (fun e => if e.fst = (r, t) then ((r, t), vs) else e) }
  else
    { hvs with sets := hvs.sets ++ [((r, t), vs)] }

/-- Modelled from the spec: HeightVoteSet.SetRound(r) — rounds r and r+1 are
pre-allocated to allow round-skipping (tracked here by the round field alone;
entries materialize on first use). -/
def HeightVoteSet.setRound (hvs : HeightVoteSet) (r : Nat) : HeightVoteSet :=
  { hvs with round := r }

/-- Modelled from the spec: HeightVoteSet.AddByIndex delegates to the vote set
of the vote's round and type; a vote for a round beyond the pre-allocated ones
(further than one round ahead) is not added. -/
def HeightVoteSet.addByIndex (hvs : HeightVoteSet) (valIndex : Nat) (v : Vote) :
    HeightVoteSet × Bool × Option VoteErr :=
  if v.round > hvs.round + 1 then
    (hvs, false, none)
  else
    let res := (hvs.getVoteSet v.round v.vtype).addByIndex valIndex v
    (hvs.setVoteSet v.round v.vtype res.fst, res.snd.fst, res.snd.snd)

/-- Scan rounds r, r-1, ..., 0 for the highest one whose prevotes reached a
two-thirds majority. -/
def HeightVoteSet.polRoundAux (hvs : HeightVoteSet) : Nat → Int
  | 0 => if (hvs.prevotes 0).hasTwoThirdsMajority then 0 else -1
  | r + 1 =>
      if (hvs.prevotes (r + 1)).hasTwoThirdsMajority then ((r : Int) + 1)
      else hvs.polRoundAux r

/-- Modelled from the spec: HeightVoteSet.POLRound — the highest round at or
below the current one whose prevotes reached a two-thirds majority, or -1.
A round with a two-thirds majority for nil counts: the Precommit step of the
spec requires a nil polka in the current round to precommit nil (rather than
fail its internal sanity check), which forces nil polkas to qualify here. -/
def HeightVoteSet.polRound (hvs : HeightVoteSet) : Int :=
  hvs.polRoundAux hvs.round

/-! The double-signing-safe signer, embedded from types/priv_validator.go
(LastSignedInfo and LastSignedInfo.SignBytesHRS). -/

/-- Errors returned by LastSignedInfo.SignBytesHRS, one per error message the
source produces. There is no separate conflict error in the source: the
equal-HRS-different-bytes case returns the same step-regression error. -/
inductive SignErr
  | heightRegression
  | roundRegression
  | stepRegression
  | signerFailure
deriving DecidableEq, Repr

/-- Classifies the errors the source builds from a regression of the
(height, round, step) ordering (their messages all read so-and-so regression). -/
def SignErr.isRegression : SignErr → Bool
  | .heightRegression => true
  | .roundRegression => true
  | .stepRegression => true
  | .signerFailure => false

/-- Result of a SignBytesHRS call: a signature, an error, or the PanicSanity
crash (LastSignBytes set while LastSignature is empty). -/
inductive SignOutcome
  | ok (sig : Nat)
  | err (e : SignErr)
  | panicked
deriving DecidableEq, Repr

/-- Whether the outcome classifies as one of the regression errors. -/
def SignOutcome.isRegressionErr : SignOutcome → Bool
  | .err e => e.isRegression
  | _ => false

/-- The persisted last-signed state of the signer (LastSignedInfo): heights,
rounds and steps are naturals (Propose=1, Prevote=2, Precommit=3, 0 initial);
LastSignature is none for the empty signature, LastSignBytes none for nil. -/
structure LastSignedInfo where
  lastHeight : Nat
  lastRound : Nat
  lastStep : Nat
  lastSignature : Option Nat
  lastSignBytes : Option (List Nat)
deriving DecidableEq, Repr

/-- The full result of a SignBytesHRS call: the outcome, the (possibly updated)
persisted info, and whether the underlying signing key was invoked. -/
structure SignResult where
  outcome : SignOutcome
  info : LastSignedInfo
  signerCalled : Bool
deriving DecidableEq, Repr

/-- Embeds LastSignedInfo.SignBytesHRS (types/priv_validator.go): refuse on any
regression of (height, round, step); on an exact repeat of the last signed
bytes return the stored signature without signing; otherwise sign and persist
the new (height, round, step, signBytes, signature). The underlying Signer is a
parameter; its failure is reported without touching the persisted info. -/
def LastSignedInfo.signBytesHRS (info : LastSignedInfo)
    (signer : List Nat → Except Unit Nat)
    (height round step : Nat) (signBytes : List Nat) : SignResult :=
  if info.lastHeight > height then
    { outcome := .err .heightRegression, info := info, signerCalled := false }
  else if info.lastHeight = height ∧ info.lastRound > round then
    { outcome := .err .roundRegression, info := info, signerCalled := false }
  else if info.lastHeight = height ∧ info.lastRound = round ∧ info.lastStep > step then
    { outcome := .err .stepRegression, info := info, signerCalled := false }
  else if info.lastHeight = height ∧ info.lastRound = round ∧ info.lastStep = step then
    match info.lastSignBytes with
    | some lsb =>
        match info.lastSignature with
        | none => { outcome := .panicked, info := info, signerCalled := false }
        | some lsig =>
            if lsb = signBytes then
              { outcome := .ok lsig, info := info, signerCalled := false }
            else
              { outcome := .err .stepRegression, info := info, signerCalled := false }
    | none => { outcome := .err .stepRegression, info := info, signerCalled := false }
  else
    match signer signBytes with
    | .error _ => { outcome := .err .signerFailure, info := info, signerCalled := true }
    | .ok sig =>
        { outcome := .ok sig
          info := { lastHeight := height, lastRound := round, lastStep := step
                    lastSignature := some sig, lastSignBytes := some signBytes }
          signerCalled := true }

/-- Strict lexicographic order on (height, round, step) triples, the total
order the signer contract uses. -/
def hrsLt (h r s H R S : Nat) : Prop :=
  h < H ∨ (h = H ∧ (r < R ∨ (r = R ∧ s < S)))

instance (h r s H R S : Nat) : Decidable (hrsLt h r s H R S) := by
  unfold hrsLt
  infer_instance

/-! The validator-set update logic, embedded from the state package
(updateValidators and changeInVotingPowerMoreOrEqualToOneThird in
src/unnamed/part_002, and State.SetBlockAndValidators in src/unnamed/part_003).
Public keys arrive already decoded: an update carries the address the source
derives from the go-wire encoded pubkey. -/

/-- A validator update returned by EndBlock (abci.Validator): the address of the
(decoded) public key and the requested power. The power is an Int because the
source casts it to int64 and rejects negatives as overflow. -/
structure AbciValidator where
  address : Nat
  power : Int
deriving DecidableEq, Repr

/-- Errors of updateValidators, one per error return of the source. -/
inductive UpdateErr
  | powerOverflow
  | changeTooLarge
  | addFailed
  | removeFailed
  | updateFailed
deriving DecidableEq, Repr

/-- Modelled from the spec: insertion into the ordered validator list. -/
def insertValidatorSorted : List Validator → Validator → List Validator
  | [], v => [v]
  | w :: rest, v =>
      if v.address < w.address then v :: w :: rest else w :: insertValidatorSorted rest v

/-- Modelled from the spec: ValidatorSet.Add — fails if the address exists. -/
def ValidatorSet.add (vs : ValidatorSet) (v : Validator) : ValidatorSet × Bool :=
  if (vs.getByAddress v.address).isSome then (vs, false)
  else ({ vals := insertValidatorSorted vs.vals v }, true)

/-- Modelled from the spec: ValidatorSet.Remove — fails if the address is absent. -/
def ValidatorSet.remove (vs : ValidatorSet) (a : Nat) : ValidatorSet × Bool :=
  if (vs.getByAddress a).isSome then
    ({ vals := vs.vals.filter (fun v => decide (v.address ≠ a)) }, true)
  else (vs, false)

/-- Modelled from the spec: ValidatorSet.Update — replaces the entry with the
same address, fails if absent. -/
def ValidatorSet.update (vs : ValidatorSet) (v : Validator) : ValidatorSet × Bool :=
  if (vs.getByAddress v.address).isSome then
    ({ vals := vs.vals.map (fun w => if w.address = v.address then v else w) }, true)
  else (vs, false)

/-- The absolute change one update requests against the given set: the full
power for a new validator, |old - new| for an existing one. -/
def updateChange (currentSet : ValidatorSet) (u : AbciValidator) : Nat :=
  match currentSet.getByAddress u.address with
  | none => u.power.toNat
  | some val => max val.votingPower u.power.toNat - min val.votingPower u.power.toNat

/-- The cumulative absolute change a list of updates requests (each measured
against the original set, as the source does). -/
def totalPowerChange (currentSet : ValidatorSet) (updates : List AbciValidator) : Nat :=
  (updates.map (updateChange currentSet)).sum

/-- The accumulation loop of changeInVotingPowerMoreOrEqualToOneThird: walk the
updates keeping a running total of absolute change, answering true as soon as
it reaches the threshold. -/
def changeAccumLoop (currentSet : ValidatorSet) (threshold : Nat) :
    Nat → List AbciValidator → Except UpdateErr Bool
  | _, [] => .ok false
  | acc, u :: rest =>
      if u.power < 0 then .error .powerOverflow
      else
        let acc2 := acc + updateChange currentSet u
        if acc2 ≥ threshold then .ok true
        else changeAccumLoop currentSet threshold acc2 rest

/-- Embeds changeInVotingPowerMoreOrEqualToOneThird (src/unnamed/part_002):
threshold is TotalVotingPower * 1 / 3 with integer division. -/
def changeInVotingPowerMoreOrEqualToOneThird (currentSet : ValidatorSet)
    (updates : List AbciValidator) : Except UpdateErr Bool :=
  changeAccumLoop currentSet (currentSet.totalVotingPower * 1 / 3) 0 updates

/-- The update-application loop of updateValidators: adds, removes (power 0) or
updates each entry in order, mutating the set in place; a failure part-way
leaves the earlier updates applied, as in the source. -/
def applyValidatorUpdates (set : ValidatorSet) :
    List AbciValidator → Option UpdateErr × ValidatorSet
  | [] => (none, set)
  | u :: rest =>
      if u.power < 0 then (some .powerOverflow, set)
      else
        match set.getByAddress u.address with
        | none =>
            let res := set.add { address := u.address, votingPower := u.power.toNat, accum := 0 }
            if res.snd then applyValidatorUpdates res.fst rest
            else (some .addFailed, res.fst)
        | some val =>
            if u.power = 0 then
              let res := set.remove u.address
              if res.snd then applyValidatorUpdates res.fst rest
              else (some .removeFailed, res.fst)
            else
              let res := set.update { val with votingPower := u.power.toNat }
              if res.snd then applyValidatorUpdates res.fst rest
              else (some .updateFailed, res.fst)

/-- Embeds updateValidators (src/unnamed/part_002): first reject the whole batch
if the requested change in voting power reaches one third of the total, then
apply the updates one by one. Returns the error (if any) and the resulting set
(unchanged when the batch was rejected up front). -/
def updateValidators (currentSet : ValidatorSet) (updates : List AbciValidator) :
    Option UpdateErr × ValidatorSet :=
  match changeInVotingPowerMoreOrEqualToOneThird currentSet updates with
  | .error e => (some e, currentSet)
  | .ok true => (some .changeTooLarge, currentSet)
  | .ok false => applyValidatorUpdates currentSet updates

/-- The state of the state package (src/unnamed/part_003 State), restricted to
the fields SetBlockAndValidators touches or reads. -/
structure SmState where
  lastBlockHeight : Nat
  lastBlockHash : Nat
  lastBlockPartsHeader : PartSetHeader
  lastBlockTime : Int
  validators : ValidatorSet
  lastValidators : ValidatorSet
  abciResponsesValidators : List AbciValidator
deriving DecidableEq, Repr

/-- A block header, restricted to the fields SetBlockAndValidators reads. -/
structure BlockHeader where
  height : Nat
  hash : Nat
  time : Int
deriving DecidableEq, Repr

/-- Embeds State.SetBlockAndValidators (src/unnamed/part_003): copy the
validator set, apply the EndBlock validator updates to the copy (an error is
logged and carried over, leaving whatever the loop already applied), advance
the accumulators by one round, and install the result: the pre-update set
becomes LastValidators and the updated set becomes Validators — the set used
for the very next block. -/
def SmState.setBlockAndValidators (s : SmState) (header : BlockHeader)
    (blockPartsHeader : PartSetHeader) : SmState :=
  let prevValSet := s.validators
  let nextValSet := (updateValidators prevValSet s.abciResponsesValidators).snd
  let nextValSet2 := nextValSet.incrementAccum 1
  { s with
      lastBlockHeight := header.height
      lastBlockHash := header.hash
      lastBlockPartsHeader := blockPartsHeader
      lastBlockTime := header.time
      validators := nextValSet2
      lastValidators := prevValSet }

/-! The consensus state machine, embedded from the ConsensusState of the
consensus package (the consensus/state.go version included in
src/consensus/reactor_test.go that defines scheduleTimeout, sendInternalMessage
and the receive routine; the claims reference that version). Timeout durations
are in milliseconds. -/

/-- The ordered round step enumeration (numeric in the source: NewHeight=1 ...
Commit=8). -/
inductive RoundStepType
  | NewHeight
  | NewRound
  | Propose
  | Prevote
  | PrevoteWait
  | Precommit
  | PrecommitWait
  | Commit
deriving DecidableEq, Repr

/-- The numeric value of a round step, used for the ordered comparisons. -/
def RoundStepType.toNat : RoundStepType → Nat
  | .NewHeight => 1
  | .NewRound => 2
  | .Propose => 3
  | .Prevote => 4
  | .PrevoteWait => 5
  | .Precommit => 6
  | .PrecommitWait => 7
  | .Commit => 8

/-- A signed proposal (signature abstracted away). -/
structure Proposal where
  height : Nat
  round : Nat
  blockPartsHeader : PartSetHeader
  polRound : Int
deriving DecidableEq, Repr

/-- A scheduled timeout request: fire after duration at (height, round, step). -/
structure TimeoutInfo where
  duration : Int
  height : Nat
  round : Nat
  step : RoundStepType
deriving DecidableEq, Repr

/-- Messages the state machine pushes onto its internal message queue. -/
inductive InternalMsg
  | voteMsg (valIndex : Nat) (v : Vote)
  | proposalMsg (p : Proposal)
  | blockPartMsg (height round partIndex : Nat)
deriving DecidableEq, Repr

/-- The local private validator, as the consensus engine sees it: its address
and an abstraction of whether its signer currently signs successfully (the
double-signing guard and key are behind it). -/
structure PrivVal where
  address : Nat
  signOk : Bool
deriving DecidableEq, Repr

/-- The panic sites of the embedded consensus code (PanicSanity /
PanicConsensus); reaching one aborts the transition. -/
inductive Crash
  | updateToStateHeightMismatch
  | updateToStateInconsistent
  | updateToStateNoCommitMajority
  | stageNilBlock
  | polRoundSanity
  | invalidPolkaBlock
  | prevoteWaitNoTwoThirdsAny
  | precommitWaitNoTwoThirdsAny
  | commitNoMajority
  | tryFinalizeHeightMismatch
  | finalizePartsHeaderMismatch
  | finalizeWrongBlock
  | invalidCommittedBlock
  | saveInvalidBlock
  | nilLastCommit
deriving DecidableEq, Repr

/-- Alias for the proposal record, needed because the RoundState field of the
same name shadows the type inside the structure declaration. -/
abbrev ProposalRec := Proposal

/-- The RoundState plus the engine-internal fields the embedded functions use.
Field names follow the source. The additional fields now (the wall clock when
the current event is handled), decideBlockResult (what createProposalBlock
would return, abstracting mempool and app state), ticks, msgs, savedBlocks
(recorded side effects) and blockStoreHeight (the block store) close the
embedding over its environment. -/
structure ConsensusState where
  Height : Nat
  Round : Nat
  Step : RoundStepType
  StartTime : Int
  CommitTime : Option Int
  Validators : ValidatorSet
  Proposal : Option ProposalRec
  ProposalBlock : Option Block
  ProposalBlockParts : Option PartSet
  LockedRound : Nat
  LockedBlock : Option Block
  LockedBlockParts : Option PartSet
  Votes : HeightVoteSet
  CommitRound : Int
  LastCommit : Option VoteSet
  LastValidators : ValidatorSet
  state : Option SmState
  stagedBlock : Option Block
  privValidator : Option PrivVal
  decideBlockResult : Option (Block × PartSet)
  blockStoreHeight : Nat
  now : Int
  nSteps : Nat
  ticks : List TimeoutInfo
  msgs : List InternalMsg
  savedBlocks : List Nat
deriving DecidableEq, Repr

/-- Maximum duration of RoundStepPropose (a fixed constant in the source). -/
def timeoutPropose : Int := 3000

/-- After any +2/3 prevotes, base wait for stragglers. -/
def timeoutPrevote0 : Int := 1000

/-- Per-round increment of the prevote wait. -/
def timeoutPrevoteDelta : Int := 500

/-- After any +2/3 precommits, base wait for stragglers. -/
def timeoutPrecommit0 : Int := 1000

/-- Per-round increment of the precommit wait. -/
def timeoutPrecommitDelta : Int := 500

/-- Wait after a commit before the next height starts. -/
def timeoutCommit : Int := 2000

/-- Embeds ConsensusState.updateRoundStep. -/
def ConsensusState.updateRoundStep (s : ConsensusState) (round : Nat)
    (step : RoundStepType) : ConsensusState :=
  { s with Round := round, Step := step }

/-- Embeds ConsensusState.newStep (the broadcast channel is abstracted into the
step counter). -/
def ConsensusState.newStep (s : ConsensusState) : ConsensusState :=
  { s with nSteps := s.nSteps + 1 }

/-- Embeds ConsensusState.scheduleTimeout: record the tick request. -/
def ConsensusState.scheduleTimeout (s : ConsensusState) (duration : Int)
    (height round : Nat) (step : RoundStepType) : ConsensusState :=
  { s with ticks := s.ticks ++ [{ duration := duration, height := height, round := round, step := step }] }

/-- Embeds ConsensusState.sendInternalMessage: record the message. -/
def ConsensusState.sendInternalMessage (s : ConsensusState) (m : InternalMsg) :
    ConsensusState :=
  { s with msgs := s.msgs ++ [m] }

/-- Embeds ConsensusState.scheduleRound0: schedule EnterNewRound(height, 0) to
fire once the wall clock reaches StartTime. -/
def ConsensusState.scheduleRound0 (s : ConsensusState) (height : Nat) : ConsensusState :=
  s.scheduleTimeout (s.StartTime - s.now) height 0 .NewHeight

/-- Embeds ConsensusState.stageBlock: nil blocks are a panic; a block whose hash
matches the cached staged block is accepted at once; otherwise the block is run
against the application (abstracted into the valid flag) and cached on success.
Returns the state and whether staging succeeded (the error being nil). -/
def ConsensusState.stageBlock (s : ConsensusState) (block : Option Block)
    (_blockParts : Option PartSet) : Except Crash (ConsensusState × Bool) :=
  match block with
  | none => .error .stageNilBlock
  | some b =>
      match s.stagedBlock with
      | some sb =>
          if sb.hash = b.hash then .ok (s, true)
          else if b.valid then .ok ({ s with stagedBlock := some b }, true)
          else .ok (s, false)
      | none =>
          if b.valid then .ok ({ s with stagedBlock := some b }, true)
          else .ok (s, false)

/-- Embeds ConsensusState.signVote and signAddVote: when a private validator is
configured, is part of the validator set, and its signer succeeds, the vote
(at the current Height and Round) is signed and pushed on the internal queue. -/
def ConsensusState.signAddVote (s : ConsensusState) (t : VoteType)
    (hash : Option Nat) (header : PartSetHeader) : ConsensusState :=
  match s.privValidator with
  | none => s
  | some pv =>
      match s.Validators.indexOfAddress pv.address with
      | none => s
      | some idx =>
          if pv.signOk then
            s.sendInternalMessage (.voteMsg idx
              { height := s.Height, round := s.Round, vtype := t
                blockHash := hash, partsHeader := header })
          else s

/-- Embeds ConsensusState.isProposalComplete: the proposal and block are here,
and when the proposal names a POL round we hold its +2/3 prevotes. -/
def ConsensusState.isProposalComplete (s : ConsensusState) : Bool :=
  match s.Proposal, s.ProposalBlock with
  | some p, some _ =>
      if p.polRound < 0 then true
      else (s.Votes.prevotes p.polRound.toNat).hasTwoThirdsMajority
  | _, _ => false

/-- Send the block-part messages for a freshly decided proposal. -/
def ConsensusState.sendPartMessages (s : ConsensusState) (total : Nat) : ConsensusState :=
  (List.range total).foldl
    (fun acc i => acc.sendInternalMessage (.blockPartMsg acc.Height acc.Round i)) s

/-- Embeds ConsensusState.decideProposal: re-propose the locked block when
locked, else the block createProposalBlock builds (abstracted into
decideBlockResult); sign the proposal (POLRound from the height vote set) and
push the proposal and its parts on the internal queue. -/
def ConsensusState.decideProposal (s : ConsensusState) (height round : Nat) :
    ConsensusState :=
  let chosen : Option (Block × PartSet) :=
    match s.LockedBlock with
    | some b =>
        match s.LockedBlockParts with
        | some ps => some (b, ps)
        | none => none
    | none => s.decideBlockResult
  match chosen with
  | none => s
  | some bp =>
      match s.privValidator with
      | none => s
      | some pv =>
          if pv.signOk then
            let proposal : ProposalRec :=
              { height := height, round := round
                blockPartsHeader := bp.snd.header, polRound := s.Votes.polRound }
            let s1 := s.sendInternalMessage (.proposalMsg proposal)
            s1.sendPartMessages bp.snd.header.total
          else s

/-- Embeds ConsensusState.doPrevote: prevote the locked block when locked; else
prevote the proposal block when it is here and stages successfully; else
prevote nil. -/
def ConsensusState.doPrevote (s : ConsensusState) (_height _round : Nat) :
    Except Crash ConsensusState :=
  match s.LockedBlock with
  | some b =>
      .ok (s.signAddVote .prevote (some b.hash) (PartSet.headerOf s.LockedBlockParts))
  | none =>
      match s.ProposalBlock with
      | none => .ok (s.signAddVote .prevote none { total := 0, hash := 0 })
      | some pb =>
          match s.stageBlock (some pb) s.ProposalBlockParts with
          | .error c => .error c
          | .ok res =>
              if res.snd then
                .ok (res.fst.signAddVote .prevote (some pb.hash)
                  (PartSet.headerOf res.fst.ProposalBlockParts))
              else
                .ok (res.fst.signAddVote .prevote none { total := 0, hash := 0 })

/-- Embeds ConsensusState.EnterPrevote: on passing the entry guard, sign and
broadcast the prevote, then move the step to Prevote (the deferred update). -/
def ConsensusState.EnterPrevote (s : ConsensusState) (height round : Nat) :
    Except Crash ConsensusState :=
  if s.Height ≠ height ∨ round < s.Round ∨
      (s.Round = round ∧ RoundStepType.Prevote.toNat ≤ s.Step.toNat) then
    .ok s
  else
    match s.doPrevote height round with
    | .error c => .error c
    | .ok s1 => .ok ((s1.updateRoundStep round .Prevote).newStep)

/-- Embeds ConsensusState.EnterPrevoteWait: requires any +2/3 prevotes at the
round (a panic otherwise), schedules the growing prevote timeout and moves the
step to PrevoteWait. -/
def ConsensusState.EnterPrevoteWait (s : ConsensusState) (height round : Nat) :
    Except Crash ConsensusState :=
  if s.Height ≠ height ∨ round < s.Round ∨
      (s.Round = round ∧ RoundStepType.PrevoteWait.toNat ≤ s.Step.toNat) then
    .ok s
  else if ¬ (s.Votes.prevotes round).hasTwoThirdsAny then
    .error .prevoteWaitNoTwoThirdsAny
  else
    let s1 := s.scheduleTimeout (timeoutPrevote0 + timeoutPrevoteDelta * (round : Int))
      height round .PrevoteWait
    .ok ((s1.updateRoundStep round .PrevoteWait).newStep)

/-- The body of EnterPrecommit, between the entry guard and the deferred step
update: take the two-thirds majority M of the round prevotes and act on the
five cases (absent, nil, locked block, proposal block, unknown block). -/
def ConsensusState.enterPrecommitBody (s : ConsensusState) (round : Nat) :
    Except Crash ConsensusState :=
  match (s.Votes.prevotes round).twoThirdsMajority with
  | none =>
      .ok (s.signAddVote .precommit none { total := 0, hash := 0 })
  | some m =>
      if s.Votes.polRound < (round : Int) then .error .polRoundSanity
      else
        match m.fst with
        | none =>
            let s1 :=
              if s.LockedBlock = none then s
              else { s with LockedRound := 0, LockedBlock := none, LockedBlockParts := none }
            .ok (s1.signAddVote .precommit none { total := 0, hash := 0 })
        | some mh =>
            if Block.hashesTo s.LockedBlock (some mh) then
              .ok (({ s with LockedRound := round }).signAddVote .precommit (some mh) m.snd)
            else if Block.hashesTo s.ProposalBlock (some mh) then
              match s.stageBlock s.ProposalBlock s.ProposalBlockParts with
              | .error c => .error c
              | .ok res =>
                  if ¬ res.snd then .error .invalidPolkaBlock
                  else
                    let s1 := res.fst
                    let s2 := { s1 with LockedRound := round, LockedBlock := s1.ProposalBlock
                                        LockedBlockParts := s1.ProposalBlockParts }
                    .ok (s2.signAddVote .precommit (some mh) m.snd)
            else
              let s1 := { s with LockedRound := 0, LockedBlock := none, LockedBlockParts := none }
              let s2 :=
                if PartSet.hasHeaderOpt s1.ProposalBlockParts m.snd then s1
                else { s1 with ProposalBlock := none
                               ProposalBlockParts := some (newPartSetFromHeader m.snd) }
              .ok (s2.signAddVote .precommit none { total := 0, hash := 0 })

/-- Embeds ConsensusState.EnterPrecommit: entry guard, then the five-case body,
then the deferred move of the step to Precommit. -/
def ConsensusState.EnterPrecommit (s : ConsensusState) (height round : Nat) :
    Except Crash ConsensusState :=
  if s.Height ≠ height ∨ round < s.Round ∨
      (s.Round = round ∧ RoundStepType.Precommit.toNat ≤ s.Step.toNat) then
    .ok s
  else
    match s.enterPrecommitBody round with
    | .error c => .error c
    | .ok s1 => .ok ((s1.updateRoundStep round .Precommit).newStep)

/-- Embeds ConsensusState.EnterPrecommitWait: requires any +2/3 precommits at
the round (a panic otherwise), schedules the growing precommit timeout and
moves the step to PrecommitWait. -/
def ConsensusState.EnterPrecommitWait (s : ConsensusState) (height round : Nat) :
    Except Crash ConsensusState :=
  if s.Height ≠ height ∨ round < s.Round ∨
      (s.Round = round ∧ RoundStepType.PrecommitWait.toNat ≤ s.Step.toNat) then
    .ok s
  else if ¬ (s.Votes.precommits round).hasTwoThirdsAny then
    .error .precommitWaitNoTwoThirdsAny
  else
    let s1 := s.scheduleTimeout (timeoutPrecommit0 + timeoutPrecommitDelta * (round : Int))
      height round .PrecommitWait
    .ok ((s1.updateRoundStep round .PrecommitWait).newStep)

/-- Embeds ConsensusState.saveBlock: the block must stage (a panic otherwise);
save it to the block store when the store is behind; the application commit,
state save and mempool update are abstracted as always succeeding. -/
def ConsensusState.saveBlock (s : ConsensusState) (block : Option Block)
    (blockParts : Option PartSet) : Except Crash ConsensusState :=
  match s.stageBlock block blockParts with
  | .error c => .error c
  | .ok res =>
      if ¬ res.snd then .error .saveInvalidBlock
      else
        match block with
        | none => .error .stageNilBlock
        | some b =>
            if res.fst.blockStoreHeight < b.height then
              .ok { res.fst with savedBlocks := res.fst.savedBlocks ++ [b.hash]
                                 blockStoreHeight := b.height }
            else .ok res.fst

/-- Embeds ConsensusState.FinalizeCommit: sanity checks on the commit majority,
the parts header and the block (panics), stage and save the block, then
schedule round 0 of the next height. -/
def ConsensusState.FinalizeCommit (s : ConsensusState) (height : Nat) :
    Except Crash ConsensusState :=
  if s.Height ≠ height ∨ s.Step ≠ .Commit then .ok s
  else
    match (s.Votes.precommits s.CommitRound.toNat).twoThirdsMajority with
    | none => .error .commitNoMajority
    | some m =>
        if ¬ PartSet.hasHeaderOpt s.ProposalBlockParts m.snd then
          .error .finalizePartsHeaderMismatch
        else if ¬ Block.hashesTo s.ProposalBlock m.fst then
          .error .finalizeWrongBlock
        else
          match s.stageBlock s.ProposalBlock s.ProposalBlockParts with
          | .error c => .error c
          | .ok res =>
              if ¬ res.snd then .error .invalidCommittedBlock
              else
                match res.fst.saveBlock res.fst.ProposalBlock res.fst.ProposalBlockParts with
                | .error c => .error c
                | .ok s1 => .ok (s1.scheduleRound0 (height + 1))

/-- Embeds ConsensusState.tryFinalizeCommit: finalize as soon as the committed
block (by the +2/3 precommit majority of the commit round) is assembled. -/
def ConsensusState.tryFinalizeCommit (s : ConsensusState) (height : Nat) :
    Except Crash ConsensusState :=
  if s.Height ≠ height then .error .tryFinalizeHeightMismatch
  else
    match (s.Votes.precommits s.CommitRound.toNat).twoThirdsMajority with
    | none => .ok s
    | some m =>
        match m.fst with
        | none => .ok s
        | some mh =>
            if ¬ Block.hashesTo s.ProposalBlock (some mh) then .ok s
            else s.FinalizeCommit height

/-- The body of EnterCommit between the guard and the deferred part: move the
Locked fields over to the Proposal fields when they match the commit hash, and
set up to fetch the committed block when we do not have it. -/
def ConsensusState.enterCommitBody (s : ConsensusState) (commitRound : Nat) :
    Except Crash ConsensusState :=
  match (s.Votes.precommits commitRound).twoThirdsMajority with
  | none => .error .commitNoMajority
  | some m =>
      let s1 :=
        if Block.hashesTo s.LockedBlock m.fst then
          { s with ProposalBlock := s.LockedBlock, ProposalBlockParts := s.LockedBlockParts }
        else s
      let s2 :=
        if ¬ Block.hashesTo s1.ProposalBlock m.fst then
          if ¬ PartSet.hasHeaderOpt s1.ProposalBlockParts m.snd then
            { s1 with ProposalBlock := none
                      ProposalBlockParts := some (newPartSetFromHeader m.snd) }
          else s1
        else s1
      .ok s2

/-- Embeds ConsensusState.EnterCommit: guard, body, then the deferred part —
keep the Round, move the step to Commit, record the commit round and try to
finalize at once. -/
def ConsensusState.EnterCommit (s : ConsensusState) (height commitRound : Nat) :
    Except Crash ConsensusState :=
  if s.Height ≠ height ∨ RoundStepType.Commit.toNat ≤ s.Step.toNat then .ok s
  else
    match s.enterCommitBody commitRound with
    | .error c => .error c
    | .ok s1 =>
        let s2 := s1.updateRoundStep s1.Round .Commit
        let s3 := { s2 with CommitRound := (commitRound : Int) }
        let s4 := s3.newStep
        s4.tryFinalizeCommit height

/-- Embeds ConsensusState.EnterPropose: on passing the entry guard, schedule the
(fixed) propose timeout, decide and broadcast a proposal when this validator is
the designated proposer, and should the complete proposal already be in hand go
straight to prevote; finally (deferred) move the step to Propose. -/
def ConsensusState.EnterPropose (s : ConsensusState) (height round : Nat) :
    Except Crash ConsensusState :=
  if s.Height ≠ height ∨ round < s.Round ∨
      (s.Round = round ∧ RoundStepType.Propose.toNat ≤ s.Step.toNat) then
    .ok s
  else
    let s1 := s.scheduleTimeout timeoutPropose height round .Propose
    match s1.privValidator with
    | none => .ok ((s1.updateRoundStep round .Propose).newStep)
    | some pv =>
        let isProposer :=
          match s1.Validators.proposer with
          | some p => decide (p.address = pv.address)
          | none => false
        let s2 := if isProposer then s1.decideProposal height round else s1
        if s2.isProposalComplete then
          match s2.EnterPrevote height s2.Round with
          | .error c => .error c
          | .ok s3 => .ok ((s3.updateRoundStep round .Propose).newStep)
        else .ok ((s2.updateRoundStep round .Propose).newStep)

/-- Embeds ConsensusState.EnterNewRound: on passing the entry guard, advance the
proposer rotation when rounds were skipped, clear the Proposal fields except on
round 0 (where parts received early during NewHeight must be preserved),
pre-allocate the next round of vote sets and go straight to EnterPropose. -/
def ConsensusState.EnterNewRound (s : ConsensusState) (height round : Nat) :
    Except Crash ConsensusState :=
  if s.Height ≠ height ∨ round < s.Round ∨ (s.Round = round ∧ s.Step ≠ .NewHeight) then
    .ok s
  else
    let validators :=
      if s.Round < round then s.Validators.incrementAccum (round - s.Round)
      else s.Validators
    let s1 := s.updateRoundStep round .NewRound
    let s2 := { s1 with Validators := validators }
    let s3 :=
      if round = 0 then s2
      else { s2 with Proposal := none, ProposalBlock := none, ProposalBlockParts := none }
    let s4 := { s3 with Votes := s3.Votes.setRound (round + 1) }
    s4.EnterPropose height round

/-- Embeds ConsensusState.updateToState (the reset of the round state for the
next height). The two sanity panics and the stale-state early return of the
source come first; then every round-state field is reset from the given state,
and StartTime is set to CommitTime + timeoutCommit — or now + timeoutCommit
when no commit time was recorded. -/
def ConsensusState.updateToState (s : ConsensusState) (st : SmState) :
    Except Crash ConsensusState :=
  if s.CommitRound > -1 ∧ 0 < s.Height ∧ s.Height ≠ st.lastBlockHeight then
    .error .updateToStateHeightMismatch
  else
    let inconsistent : Bool :=
      match s.state with
      | some prev => decide (prev.lastBlockHeight + 1 ≠ s.Height)
      | none => false
    if inconsistent then .error .updateToStateInconsistent
    else
      let stale : Bool :=
        match s.state with
        | some prev => decide (st.lastBlockHeight ≤ prev.lastBlockHeight)
        | none => false
      if stale then .ok s
      else
        if s.CommitRound > -1 ∧
            ¬ (s.Votes.precommits s.CommitRound.toNat).hasTwoThirdsMajority then
          .error .updateToStateNoCommitMajority
        else
          let lastPrecommits : Option VoteSet :=
            if s.CommitRound > -1 then some (s.Votes.precommits s.CommitRound.toNat)
            else none
          let height := st.lastBlockHeight + 1
          let startTime : Int :=
            match s.CommitTime with
            | none => s.now + timeoutCommit
            | some ct => ct + timeoutCommit
          .ok ({ s with
                  Height := height
                  Round := 0
                  Step := .NewHeight
                  StartTime := startTime
                  CommitTime := none
                  Validators := st.validators
                  Proposal := none
                  ProposalBlock := none
                  ProposalBlockParts := none
                  LockedRound := 0
                  LockedBlock := none
                  LockedBlockParts := none
                  Votes := newHeightVoteSet height st.validators
                  CommitRound := -1
                  LastCommit := lastPrecommits
                  LastValidators := st.lastValidators
                  state := some st
                  stagedBlock := none
                  nSteps := s.nSteps + 1 })

/-- The error results of addVote (tryAddVote distinguishes exactly these). -/
inductive AddVoteErr
  | heightMismatch
  | voteErr (e : VoteErr)
deriving DecidableEq, Repr

/-- The lock-release step addVote applies to every added prevote, before the
round-skipping transitions: when locked at an earlier round than the vote's
round r, with r at or below the current round, and the round-r prevotes hold a
two-thirds majority for something other than the locked block, release the
lock. The prevotes argument is the round-r prevote set captured by the caller
(after the vote was added). -/
def ConsensusState.prevoteUnlock (s : ConsensusState) (v : Vote)
    (prevotes : VoteSet) : ConsensusState :=
  if s.LockedBlock ≠ none ∧ s.LockedRound < v.round ∧ v.round ≤ s.Round then
    match prevotes.twoThirdsMajority with
    | some m =>
        if ¬ Block.hashesTo s.LockedBlock m.fst then
          { s with LockedRound := 0, LockedBlock := none, LockedBlockParts := none }
        else s
    | none => s
  else s

/-- The round-skipping transitions addVote runs after adding a prevote. -/
def ConsensusState.prevoteCascade (s : ConsensusState) (v : Vote)
    (prevotes : VoteSet) : Except Crash ConsensusState :=
  if s.Round ≤ v.round ∧ prevotes.hasTwoThirdsAny then
    match s.EnterNewRound v.height v.round with
    | .error c => .error c
    | .ok a =>
        if prevotes.hasTwoThirdsMajority then a.EnterPrecommit v.height v.round
        else
          match a.EnterPrevote v.height v.round with
          | .error c => .error c
          | .ok b => b.EnterPrevoteWait v.height v.round
  else
    match s.Proposal with
    | some p =>
        if 0 ≤ p.polRound ∧ p.polRound = (v.round : Int) then
          if s.isProposalComplete then s.EnterPrevote v.height s.Round
          else .ok s
        else .ok s
    | none => .ok s

/-- The transitions addVote runs after adding a precommit. -/
def ConsensusState.precommitCascade (s : ConsensusState) (v : Vote)
    (precommits : VoteSet) : Except Crash ConsensusState :=
  match precommits.twoThirdsMajority with
  | some m =>
      match m.fst with
      | none => s.EnterNewRound v.height (v.round + 1)
      | some _ =>
          match s.EnterNewRound v.height v.round with
          | .error c => .error c
          | .ok a =>
              match a.EnterPrecommit v.height v.round with
              | .error c => .error c
              | .ok b => b.EnterCommit v.height v.round
  | none =>
      if s.Round ≤ v.round ∧ precommits.hasTwoThirdsAny then
        match s.EnterNewRound v.height v.round with
        | .error c => .error c
        | .ok a =>
            match a.EnterPrecommit v.height v.round with
            | .error c => .error c
            | .ok b => b.EnterPrecommitWait v.height v.round
      else .ok s

/-- Embeds ConsensusState.addVote. A precommit for the previous height is
accepted into LastCommit only at step NewHeight; a vote for the current height
goes into the height vote set and, when added, triggers the lock-release check
(prevotes) and the round-skipping transitions; any other height is rejected
with the height-mismatch error, leaving the state untouched. Returns the state,
whether the vote was added, and the error if any. -/
def ConsensusState.addVote (s : ConsensusState) (valIndex : Nat) (v : Vote) :
    Except Crash (ConsensusState × Bool × Option AddVoteErr) :=
  if v.height + 1 = s.Height then
    if ¬ (s.Step = .NewHeight ∧ v.vtype = .precommit) then
      .ok (s, false, some .heightMismatch)
    else
      match s.LastCommit with
      | none => .error .nilLastCommit
      | some lc =>
          let res := lc.addByIndex valIndex v
          .ok ({ s with LastCommit := some res.fst }, res.snd.fst,
            res.snd.snd.map .voteErr)
  else if v.height = s.Height then
    let res := s.Votes.addByIndex valIndex v
    let s0 := { s with Votes := res.fst }
    let added := res.snd.fst
    let err := res.snd.snd.map AddVoteErr.voteErr
    if added then
      match v.vtype with
      | .prevote =>
          let prevotes := s0.Votes.prevotes v.round
          let s1 := s0.prevoteUnlock v prevotes
          match s1.prevoteCascade v prevotes with
          | .error c => .error c
          | .ok s2 => .ok (s2, added, err)
      | .precommit =>
          let precommits := s0.Votes.precommits v.round
          match s0.precommitCascade v precommits with
          | .error c => .error c
          | .ok s2 => .ok (s2, added, err)
    else .ok (s0, added, err)
  else .ok (s, false, some .heightMismatch)

/-! Projection helpers and the concrete states used to evaluate the embedded
code at specific inputs. -/

/-- The successful result of a transition, if it did not panic. -/
def resultState : Except Crash ConsensusState → Option ConsensusState
  | .ok s => some s
  | .error _ => none

/-- The duration of the last scheduled timeout of a transition result. -/
def lastTickDuration (e : Except Crash ConsensusState) : Option Int :=
  (resultState e).bind (fun s => s.ticks.getLast?.map (fun t => t.duration))

/-- A single-validator set: address 7, voting power 1. -/
def exValSet : ValidatorSet := { vals := [{ address := 7, votingPower := 1, accum := 0 }] }

/-- Round-1 prevotes at height 5 where the only validator voted for the block
with hash 5 and parts header (1, 77): a two-thirds majority for that block. -/
def exPrevotesBlock : VoteSet :=
  { height := 5, round := 1, vtype := .prevote, valSet := exValSet
    votes := [some { height := 5, round := 1, vtype := .prevote
                     blockHash := some 5, partsHeader := { total := 1, hash := 77 } }] }

/-- The height vote set holding exPrevotesBlock at round 1. -/
def exHvsBlock : HeightVoteSet :=
  { height := 5, round := 1, valSet := exValSet, sets := [((1, .prevote), exPrevotesBlock)] }

/-- Round-1 prevotes at height 5 where the only validator prevoted nil: a
two-thirds majority for nil. -/
def exPrevotesNil : VoteSet :=
  { height := 5, round := 1, vtype := .prevote, valSet := exValSet
    votes := [some { height := 5, round := 1, vtype := .prevote
                     blockHash := none, partsHeader := { total := 0, hash := 0 } }] }

/-- The height vote set holding exPrevotesNil at round 1. -/
def exHvsNil : HeightVoteSet :=
  { height := 5, round := 1, valSet := exValSet, sets := [((1, .prevote), exPrevotesNil)] }

/-- A base consensus state at height 5, round 1, step Prevote, with the local
validator configured and an empty event log. -/
def exStateBase : ConsensusState :=
  { Height := 5, Round := 1, Step := .Prevote, StartTime := 0, CommitTime := none
    Validators := exValSet, Proposal := none, ProposalBlock := none
    ProposalBlockParts := none, LockedRound := 0, LockedBlock := none
    LockedBlockParts := none, Votes := exHvsNil, CommitRound := -1
    LastCommit := none, LastValidators := exValSet, state := none
    stagedBlock := none, privValidator := some { address := 7, signOk := true }
    decideBlockResult := none, blockStoreHeight := 0, now := 0, nSteps := 0
    ticks := [], msgs := [], savedBlocks := [] }

/-- A state about to precommit at round 1 while locked on a block with hash 3,
holding a proposal block with hash 9 and a partly filled part set whose header
(1, 77) matches the round-1 prevote majority for hash 5: the final case of
EnterPrecommit, with a matching parts header. -/
def exStatePolkaUnknown : ConsensusState :=
  { exStateBase with
      Votes := exHvsBlock
      LockedRound := 0
      LockedBlock := some { height := 4, hash := 3
                            partsHeader := { total := 2, hash := 50 }, valid := true }
      LockedBlockParts := some { header := { total := 2, hash := 50 }, partsCount := 2 }
      ProposalBlock := some { height := 5, hash := 9
                              partsHeader := { total := 1, hash := 77 }, valid := true }
      ProposalBlockParts := some { header := { total := 1, hash := 77 }, partsCount := 1 } }

/-- The three-validator set used for the validator-update examples. -/
def exValSet3 : ValidatorSet :=
  { vals := [{ address := 1, votingPower := 10, accum := 0 },
             { address := 2, votingPower := 10, accum := 0 },
             { address := 3, votingPower := 10, accum := 0 }] }

/-- A state-package state over exValSet3 whose EndBlock responses raise
validator 1 from power 10 to 12. -/
def exSmState : SmState :=
  { lastBlockHeight := 3, lastBlockHash := 0
    lastBlockPartsHeader := { total := 0, hash := 0 }, lastBlockTime := 0
    validators := exValSet3, lastValidators := exValSet3
    abciResponsesValidators := [{ address := 1, power := 12 }] }

/-- An empty last-commit precommit set at height 5, round 0, over exValSet. -/
def exLastCommit : VoteSet :=
  { height := 5, round := 0, vtype := .precommit, valSet := exValSet, votes := [none] }

/-- A straggler precommit for height 5 round 0 from validator 7. -/
def exStragglerVote : Vote :=
  { height := 5, round := 0, vtype := .precommit
    blockHash := some 5, partsHeader := { total := 1, hash := 77 } }

/-- A state at height 6, step NewHeight, waiting for straggler precommits of
height 5 into exLastCommit. -/
def exStateNewHeight : ConsensusState :=
  { exStateBase with Height := 6, Round := 0, Step := .NewHeight
                     LastCommit := some exLastCommit }

/-- A state that has just committed: a commit time of 1 is recorded and the
wall clock reads 5 when updateToState runs. -/
def exStateCommitted : ConsensusState :=
  { exStateBase with CommitTime := some 1, now := 5 }

/-- The committed state of height 5 handed to updateToState. -/
def exSmNext : SmState :=
  { lastBlockHeight := 5, lastBlockHash := 0
    lastBlockPartsHeader := { total := 0, hash := 0 }, lastBlockTime := 0
    validators := exValSet, lastValidators := exValSet
    abciResponsesValidators := [] }

/-- A non-validator state about to enter Propose at round 0. -/
def exStateProposeR0 : ConsensusState :=
  { exStateBase with Round := 0, Step := .NewRound, privValidator := none }

/-- A non-validator state about to enter Propose at round 1. -/
def exStateProposeR1 : ConsensusState :=
  { exStateBase with Round := 1, Step := .NewRound, privValidator := none }

/-- A state at round 0 of a new height (step NewHeight) holding early round-0
proposal data, about to enter round 0. -/
def exStateNewHeightWithParts : ConsensusState :=
  { exStateBase with
      Round := 0, Step := .NewHeight, privValidator := none
      Proposal := some { height := 5, round := 0
                         blockPartsHeader := { total := 1, hash := 77 }, polRound := -1 }
      ProposalBlock := some { height := 5, hash := 9
                              partsHeader := { total := 1, hash := 77 }, valid := true }
      ProposalBlockParts := some { header := { total := 1, hash := 77 }, partsCount := 1 }
      LockedRound := 0
      LockedBlock := some { height := 4, hash := 3
                            partsHeader := { total := 2, hash := 50 }, valid := true }
      LockedBlockParts := some { header := { total := 2, hash := 50 }, partsCount := 2 } }

/-- A locked state at round 0, step PrecommitWait, about to enter round 1. -/
def exStateLockedRound0 : ConsensusState :=
  { exStateNewHeightWithParts with Round := 0, Step := .PrecommitWait }

/-- A state about to precommit at round 1 with a nil polka, while unlocked. -/
def exStateNilPolka : ConsensusState :=
  { exStateBase with Votes := exHvsNil, Step := .Prevote }

/-- The frame of fields the propose and prevote transitions never touch:
height, the proposal fields, the lock fields, the configured validator
identity and the validator set. -/
def plFrame (s s2 : ConsensusState) : Prop :=
  s2.Height = s.Height ∧ s2.Proposal = s.Proposal ∧ s2.ProposalBlock = s.ProposalBlock ∧
  s2.ProposalBlockParts = s.ProposalBlockParts ∧ s2.LockedRound = s.LockedRound ∧
  s2.LockedBlock = s.LockedBlock ∧ s2.LockedBlockParts = s.LockedBlockParts ∧
  s2.privValidator = s.privValidator ∧ s2.Validators = s.Validators

/-! Theorems. First the helper lemmas shared between claims, then one theorem
per claim (with its witness or counterexample where required). -/

theorem signBytesHRS_err_frame (info : LastSignedInfo)
    (signer : List Nat → Except Unit Nat) (h r st : Nat) (sb : List Nat) :
    ∀ e, (info.signBytesHRS signer h r st sb).outcome = SignOutcome.err e →
      (info.signBytesHRS signer h r st sb).info = info := by
  intro e
  unfold LastSignedInfo.signBytesHRS
  repeat' split
  all_goals intro he
  all_goals first
    | rfl
    | (exfalso; simp_all)

/-- C4: a Sign call whose (height, round, step) equals the persisted last-signed
triple and whose signBytes equal LastSignBytes succeeds with exactly the stored
LastSignature, does not invoke the underlying signing key, leaves the persisted
LastSignedInfo unchanged — so repeating the identical Sign call returns the
identical result. -/
theorem claim_C4 (info : LastSignedInfo) (signer : List Nat → Except Unit Nat)
    (h r st : Nat) (sb : List Nat) (lsig : Nat)
    (hH : info.lastHeight = h) (hR : info.lastRound = r) (hS : info.lastStep = st)
    (hB : info.lastSignBytes = some sb) (hSig : info.lastSignature = some lsig) :
    info.signBytesHRS signer h r st sb =
      { outcome := .ok lsig, info := info, signerCalled := false } ∧
    (info.signBytesHRS signer h r st sb).info.signBytesHRS signer h r st sb =
      info.signBytesHRS signer h r st sb := by
  have hmain : info.signBytesHRS signer h r st sb =
      { outcome := .ok lsig, info := info, signerCalled := false } := by
    subst hH hR hS
    unfold LastSignedInfo.signBytesHRS
    simp [hB, hSig]
  refine ⟨hmain, ?_⟩
  rw [hmain]
  exact hmain

/-- Witness for C4: a concrete rebroadcast call returning the stored signature
with the persisted info untouched. -/
theorem claim_C4_witness :
    LastSignedInfo.signBytesHRS
      { lastHeight := 2, lastRound := 1, lastStep := 2
        lastSignature := some 9, lastSignBytes := some [1, 2] }
      (fun _ => .ok 0) 2 1 2 [1, 2] =
      { outcome := .ok 9
        info := { lastHeight := 2, lastRound := 1, lastStep := 2
                  lastSignature := some 9, lastSignBytes := some [1, 2] }
        signerCalled := false } ∧
    (LastSignedInfo.signBytesHRS
      { lastHeight := 2, lastRound := 1, lastStep := 2
        lastSignature := some 9, lastSignBytes := some [1, 2] }
      (fun _ => .ok 0) 2 1 2 [1, 2]).info.signBytesHRS (fun _ => .ok 0) 2 1 2 [1, 2] =
      LastSignedInfo.signBytesHRS
        { lastHeight := 2, lastRound := 1, lastStep := 2
          lastSignature := some 9, lastSignBytes := some [1, 2] }
        (fun _ => .ok 0) 2 1 2 [1, 2] :=
  claim_C4 _ _ 2 1 2 [1, 2] 9 rfl rfl rfl rfl rfl

/-- C2 (amended): ordering (height, round, step) lexicographically, a Sign call
strictly below the persisted last-signed triple fails with one of the regression
errors and no signature; a call at the last-signed triple whose signBytes differ
from LastSignBytes fails with the same step-regression error (the code has no
distinct conflict error); and every failing call leaves the persisted
LastSignedInfo unchanged. -/
theorem claim_C2_amended (info : LastSignedInfo) (signer : List Nat → Except Unit Nat)
    (h r st : Nat) (sb : List Nat) :
    (hrsLt h r st info.lastHeight info.lastRound info.lastStep →
      (info.signBytesHRS signer h r st sb).outcome.isRegressionErr = true ∧
      (info.signBytesHRS signer h r st sb).info = info ∧
      (info.signBytesHRS signer h r st sb).signerCalled = false) ∧
    (∀ lsb lsig, info.lastHeight = h → info.lastRound = r → info.lastStep = st →
      info.lastSignBytes = some lsb → info.lastSignature = some lsig → lsb ≠ sb →
      (info.signBytesHRS signer h r st sb).outcome = .err .stepRegression ∧
      (info.signBytesHRS signer h r st sb).info = info) ∧
    (∀ e, (info.signBytesHRS signer h r st sb).outcome = .err e →
      (info.signBytesHRS signer h r st sb).info = info ∧
      ∀ sig, (info.signBytesHRS signer h r st sb).outcome ≠ .ok sig) := by
  refine ⟨?_, ?_, ?_⟩
  · intro hlt
    rcases hlt with hlt | ⟨hEq, hlt | ⟨hEqR, hlt⟩⟩
    · unfold LastSignedInfo.signBytesHRS
      simp [hlt, SignOutcome.isRegressionErr, SignErr.isRegression]
    · unfold LastSignedInfo.signBytesHRS
      simp [hEq, hlt, SignOutcome.isRegressionErr, SignErr.isRegression]
    · unfold LastSignedInfo.signBytesHRS
      simp [hEq, hEqR, hlt, SignOutcome.isRegressionErr, SignErr.isRegression]
  · intro lsb lsig hH hR hS hB hSig hne
    subst hH hR hS
    unfold LastSignedInfo.signBytesHRS
    simp [hB, hSig, hne]
  · intro e he
    refine ⟨signBytesHRS_err_frame info signer h r st sb e he, ?_⟩
    intro sig hok
    rw [he] at hok
    exact SignOutcome.noConfusion hok

/-- C2 counterexample: at a concrete equal-triple, different-bytes input the
call fails, but with the very same step-regression error value that a genuine
step regression (strictly lower step, same height and round) produces — not
with a distinct conflict error. -/
theorem claim_C2_counterexample :
    (LastSignedInfo.signBytesHRS
      { lastHeight := 2, lastRound := 1, lastStep := 2
        lastSignature := some 9, lastSignBytes := some [1, 2] }
      (fun _ => .ok 0) 2 1 2 [3]).outcome = .err .stepRegression ∧
    (LastSignedInfo.signBytesHRS
      { lastHeight := 2, lastRound := 1, lastStep := 2
        lastSignature := some 9, lastSignBytes := some [1, 2] }
      (fun _ => .ok 0) 2 1 1 [3]).outcome = .err .stepRegression ∧
    SignErr.stepRegression.isRegression = true := by
  refine ⟨?_, ?_, rfl⟩ <;> rfl

/-- Witness for C2 (amended): a concrete strictly-lower call fails with a
regression error, leaving the info untouched and the key uninvoked. -/
theorem claim_C2_witness :
    (LastSignedInfo.signBytesHRS
      { lastHeight := 2, lastRound := 1, lastStep := 2
        lastSignature := some 9, lastSignBytes := some [1, 2] }
      (fun _ => .ok 0) 1 5 3 [7]).outcome.isRegressionErr = true ∧
    (LastSignedInfo.signBytesHRS
      { lastHeight := 2, lastRound := 1, lastStep := 2
        lastSignature := some 9, lastSignBytes := some [1, 2] }
      (fun _ => .ok 0) 1 5 3 [7]).info =
      { lastHeight := 2, lastRound := 1, lastStep := 2
        lastSignature := some 9, lastSignBytes := some [1, 2] } ∧
    (LastSignedInfo.signBytesHRS
      { lastHeight := 2, lastRound := 1, lastStep := 2
        lastSignature := some 9, lastSignBytes := some [1, 2] }
      (fun _ => .ok 0) 1 5 3 [7]).signerCalled = false :=
  (claim_C2_amended _ (fun _ => .ok 0) 1 5 3 [7]).1 (by decide)

theorem totalPowerChange_cons (set : ValidatorSet) (u : AbciValidator)
    (rest : List AbciValidator) :
    totalPowerChange set (u :: rest) = updateChange set u + totalPowerChange set rest := by
  simp [totalPowerChange]

theorem changeAccumLoop_hits (set : ValidatorSet) (t : Nat) :
    ∀ (updates : List AbciValidator) (acc : Nat), updates ≠ [] →
      (∀ u ∈ updates, 0 ≤ u.power) →
      t ≤ acc + totalPowerChange set updates →
      changeAccumLoop set t acc updates = .ok true := by
  intro updates
  induction updates with
  | nil => intro acc hne _ _; exact absurd rfl hne
  | cons u rest ih =>
      intro acc _ hpow hsum
      have hu : ¬ u.power < 0 := not_lt.mpr (hpow u (by simp))
      rw [totalPowerChange_cons] at hsum
      unfold changeAccumLoop
      rw [if_neg hu]
      by_cases hhit : acc + updateChange set u ≥ t
      · rw [if_pos hhit]
      · rw [if_neg hhit]
        rcases rest with _ | ⟨u2, rest2⟩
        · exfalso
          apply hhit
          simpa [totalPowerChange] using hsum
        · refine ih (acc + updateChange set u) (by simp) ?_ ?_
          · intro w hw
            exact hpow w (List.mem_cons_of_mem u hw)
          · omega

/-- C10 (amended): applying a non-empty validator-update list whose cumulative
absolute power change — a new validator's full power, |old − new| for an
existing one — reaches TotalVotingPower/3 (integer division) of the current set
makes updateValidators return an error with the validator set completely
unchanged. (The claim fails only for the degenerate empty list when the
threshold is zero, which the code accepts.) -/
theorem claim_C10_amended (set : ValidatorSet) (updates : List AbciValidator)
    (hne : updates ≠ []) (hpow : ∀ u ∈ updates, 0 ≤ u.power)
    (hbig : set.totalVotingPower / 3 ≤ totalPowerChange set updates) :
    updateValidators set updates = (some .changeTooLarge, set) := by
  unfold updateValidators changeInVotingPowerMoreOrEqualToOneThird
  rw [Nat.mul_one]
  rw [changeAccumLoop_hits set _ updates 0 hne hpow (by simpa using hbig)]

/-- C10 counterexample: with total voting power 1 the integer threshold is 0,
so the empty update list requests a cumulative change (0) that reaches the
threshold, yet updateValidators succeeds rather than returning an error. -/
theorem claim_C10_counterexample :
    ValidatorSet.totalVotingPower { vals := [{ address := 1, votingPower := 1, accum := 0 }] } / 3 ≤
      totalPowerChange { vals := [{ address := 1, votingPower := 1, accum := 0 }] } [] ∧
    updateValidators { vals := [{ address := 1, votingPower := 1, accum := 0 }] } [] =
      (none, { vals := [{ address := 1, votingPower := 1, accum := 0 }] }) := by
  exact ⟨by decide, by decide⟩

/-- Witness for C10 (amended): raising one of three power-10 validators to 20
requests a change of 10 = 30/3, which is rejected with the set unchanged. -/
theorem claim_C10_witness :
    updateValidators exValSet3 [{ address := 1, power := 20 }] =
      (some .changeTooLarge, exValSet3) :=
  claim_C10_amended exValSet3 [{ address := 1, power := 20 }]
    (by simp) (by decide) (by decide)

/-- C5 (amended): validator updates returned by EndBlock for block H take
effect already at block H+1 — after SetBlockAndValidators for H the installed
Validators (the set the engine uses to propose and validate H+1) is the
EndBlock-updated set with accumulators advanced one round, and only
LastValidators keeps the pre-update set. There is no mechanism delaying the
updates to H+2. -/
theorem claim_C5_amended (s : SmState) (header : BlockHeader) (ph : PartSetHeader) :
    (s.setBlockAndValidators header ph).validators =
      ((updateValidators s.validators s.abciResponsesValidators).snd).incrementAccum 1 ∧
    (s.setBlockAndValidators header ph).lastValidators = s.validators ∧
    (s.setBlockAndValidators header ph).lastBlockHeight = header.height :=
  ⟨rfl, rfl, rfl⟩

/-- C5 counterexample: after applying block 4 whose EndBlock raised validator 1
from power 10 to 12, the installed validator set (used for block 5 = H+1)
already carries power 12 — the claim that the set used for H+1 is unchanged by
the updates is false on this code. -/
theorem claim_C5_counterexample :
    (exSmState.setBlockAndValidators { height := 4, hash := 8, time := 100 }
        { total := 2, hash := 5 }).validators.vals.map
      (fun v => (v.address, v.votingPower)) = [(1, 12), (2, 10), (3, 10)] ∧
    exSmState.validators.vals.map (fun v => (v.address, v.votingPower)) =
      [(1, 10), (2, 10), (3, 10)] ∧
    ¬ ((exSmState.setBlockAndValidators { height := 4, hash := 8, time := 100 }
        { total := 2, hash := 5 }).validators.vals.map
      (fun v => (v.address, v.votingPower)) =
      exSmState.validators.vals.map (fun v => (v.address, v.votingPower))) := by
  refine ⟨by decide, by decide, by decide⟩

/-- C9 (amended): a successful updateToState moves the engine to round 0, step
NewHeight, of the next height and schedules round 0 at StartTime, where
StartTime is CommitTime + timeoutCommit when a commit time was recorded — even
if the wall clock is already past it, so not max(CommitTime, now) — and
now + timeoutCommit when none was (so never earlier than the recorded commit
time plus the commit delay). -/
theorem claim_C9_amended (s : ConsensusState) (st : SmState)
    (h1 : ¬ (s.CommitRound > -1 ∧ 0 < s.Height ∧ s.Height ≠ st.lastBlockHeight))
    (h2 : ∀ prev, s.state = some prev →
      prev.lastBlockHeight + 1 = s.Height ∧ prev.lastBlockHeight < st.lastBlockHeight)
    (h3 : s.CommitRound > -1 →
      (s.Votes.precommits s.CommitRound.toNat).hasTwoThirdsMajority = true) :
    ∃ s2, s.updateToState st = .ok s2 ∧
      s2.Step = .NewHeight ∧ s2.Round = 0 ∧ s2.Height = st.lastBlockHeight + 1 ∧
      s2.CommitTime = none ∧
      s2.StartTime = (match s.CommitTime with
        | none => s.now + timeoutCommit
        | some ct => ct + timeoutCommit) ∧
      (∀ ct, s.CommitTime = some ct → s2.StartTime = ct + timeoutCommit) ∧
      (s.CommitTime = none → s2.StartTime = s.now + timeoutCommit) ∧
      (s2.scheduleRound0 s2.Height).ticks = s2.ticks ++
        [{ duration := s2.StartTime - s2.now, height := s2.Height, round := 0
           step := .NewHeight }] := by
  unfold ConsensusState.updateToState
  rw [if_neg h1]
  have hincons :
      (match s.state with
        | some prev => decide (prev.lastBlockHeight + 1 ≠ s.Height)
        | none => false) = false := by
    cases hst : s.state with
    | none => rfl
    | some prev => simp [(h2 prev hst).1]
  have hstale :
      (match s.state with
        | some prev => decide (st.lastBlockHeight ≤ prev.lastBlockHeight)
        | none => false) = false := by
    cases hst : s.state with
    | none => rfl
    | some prev =>
        simp only [decide_eq_false_iff_not, not_le]
        exact (h2 prev hst).2
  simp only [hincons, hstale, Bool.false_eq_true, if_false]
  rw [if_neg (by
    intro hcontra
    exact hcontra.2 (by simp [h3 hcontra.1]))]
  refine ⟨_, rfl, rfl, rfl, rfl, rfl, rfl, ?_, ?_, ?_⟩
  · intro ct hct
    simp [hct]
  · intro hct
    simp [hct]
  · simp [ConsensusState.scheduleRound0, ConsensusState.scheduleTimeout]

/-- C9 counterexample: with CommitTime = 1 recorded and the clock at now = 5,
updateToState sets StartTime to CommitTime + timeoutCommit = 2001, not to
max(CommitTime, now) + timeoutCommit = 2005 as the claim states. -/
theorem claim_C9_counterexample :
    ((resultState (exStateCommitted.updateToState exSmNext)).map
      (fun s => s.StartTime)) = some 2001 ∧
    ¬ ((2001 : Int) = max (1 : Int) 5 + timeoutCommit) := by
  exact ⟨by decide, by decide⟩

/-- Witness for C9 (amended) at the concrete committed state. -/
theorem claim_C9_witness :
    ∃ s2, exStateCommitted.updateToState exSmNext = .ok s2 ∧
      s2.Step = .NewHeight ∧ s2.Round = 0 ∧ s2.Height = exSmNext.lastBlockHeight + 1 ∧
      s2.CommitTime = none ∧
      s2.StartTime = (match exStateCommitted.CommitTime with
        | none => exStateCommitted.now + timeoutCommit
        | some ct => ct + timeoutCommit) ∧
      (∀ ct, exStateCommitted.CommitTime = some ct → s2.StartTime = ct + timeoutCommit) ∧
      (exStateCommitted.CommitTime = none →
        s2.StartTime = exStateCommitted.now + timeoutCommit) ∧
      (s2.scheduleRound0 s2.Height).ticks = s2.ticks ++
        [{ duration := s2.StartTime - s2.now, height := s2.Height, round := 0
           step := .NewHeight }] :=
  claim_C9_amended exStateCommitted exSmNext (by decide)
    (by intro prev hp; simp [exStateCommitted, exStateBase] at hp) (by decide)

/-- C3: the lock-release rule addVote applies to every added prevote (its
definition pipes the post-add state through prevoteUnlock before the
round-skipping transitions): when locked on block b at a round below the
vote's round r, with r at or below the current round, and the round-r
prevotes hold a two-thirds majority for a block hash different from b's,
the lock is released — LockedRound becomes 0 and LockedBlock and
LockedBlockParts become nil. (The round-skipping transitions that follow may
acquire a fresh lock on the majority block; the release itself is
unconditional.) -/
theorem claim_C3 (s : ConsensusState) (v : Vote) (b : Block) (mh : Nat)
    (ph : PartSetHeader)
    (hlock : s.LockedBlock = some b) (hlr : s.LockedRound < v.round)
    (hcur : v.round ≤ s.Round)
    (hmaj : (s.Votes.prevotes v.round).twoThirdsMajority = some (some mh, ph))
    (hne : b.hash ≠ mh) :
    s.prevoteUnlock v (s.Votes.prevotes v.round) =
      { s with LockedRound := 0, LockedBlock := none, LockedBlockParts := none } := by
  unfold ConsensusState.prevoteUnlock
  rw [if_pos ⟨by simp [hlock], hlr, hcur⟩, hmaj]
  simp [hlock, Block.hashesTo, hne]

/-- Witness for C3: at the concrete locked state the unlock fires. -/
theorem claim_C3_witness :
    exStatePolkaUnknown.prevoteUnlock
        { height := 5, round := 1, vtype := .prevote, blockHash := some 5
          partsHeader := { total := 1, hash := 77 } }
        (exStatePolkaUnknown.Votes.prevotes 1) =
      { exStatePolkaUnknown with
          LockedRound := 0, LockedBlock := none, LockedBlockParts := none } :=
  claim_C3 exStatePolkaUnknown
    { height := 5, round := 1, vtype := .prevote, blockHash := some 5
      partsHeader := { total := 1, hash := 77 } }
    { height := 4, hash := 3, partsHeader := { total := 2, hash := 50 }, valid := true }
    5 { total := 1, hash := 77 } (by decide) (by decide) (by decide) (by decide)
    (by decide)

/-- C8: a precommit for the previous height is accepted into LastCommit exactly
when the node sits at step NewHeight (for a well-formed fresh straggler vote),
every other previous-height vote is rejected with the height-mismatch error and
no state change, and a vote for any other height than the current or previous
one is rejected with the height-mismatch error and no state change. -/
theorem claim_C8 (s : ConsensusState) (v : Vote) (idx : Nat) :
    (v.height + 1 = s.Height → s.Step = .NewHeight → v.vtype = .precommit →
      ∀ lc, s.LastCommit = some lc → lc.height = v.height → lc.round = v.round →
        lc.vtype = .precommit → lc.votes.get? idx = some none →
        s.addVote idx v =
          .ok ({ s with LastCommit := some (lc.addByIndex idx v).fst }, true, none) ∧
        (lc.addByIndex idx v).fst = { lc with votes := lc.votes.set idx (some v) }) ∧
    (v.height + 1 = s.Height → ¬ (s.Step = .NewHeight ∧ v.vtype = .precommit) →
      s.addVote idx v = .ok (s, false, some .heightMismatch)) ∧
    (v.height + 1 ≠ s.Height → v.height ≠ s.Height →
      s.addVote idx v = .ok (s, false, some .heightMismatch)) := by
  refine ⟨?_, ?_, ?_⟩
  · intro hH hStep hType lc hlc hh hr ht hfresh
    have hadd : lc.addByIndex idx v =
        ({ lc with votes := lc.votes.set idx (some v) }, true, none) := by
      unfold VoteSet.addByIndex
      rw [if_neg (not_not_intro ⟨hh.symm, hr.symm, hType.trans ht.symm⟩)]
      rw [hfresh]
    refine ⟨?_, by rw [hadd]⟩
    unfold ConsensusState.addVote
    rw [if_pos hH, if_neg (by simp [hStep, hType])]
    rw [hlc]
    simp [hadd]
  · intro hH hN
    unfold ConsensusState.addVote
    rw [if_pos hH, if_pos hN]
  · intro h1 h2
    unfold ConsensusState.addVote
    rw [if_neg h1, if_neg h2]

/-- Witness for C8: the three cases at concrete states — a straggler precommit
accepted at step NewHeight, the same vote rejected at step NewRound, and a
far-off height rejected. -/
theorem claim_C8_witness :
    (exStateNewHeight.addVote 0 exStragglerVote =
      .ok ({ exStateNewHeight with
              LastCommit := some (exLastCommit.addByIndex 0 exStragglerVote).fst },
        true, none)) ∧
    ({ exStateNewHeight with Step := .NewRound }.addVote 0 exStragglerVote =
      .ok ({ exStateNewHeight with Step := .NewRound }, false, some .heightMismatch)) ∧
    (exStateNewHeight.addVote 0 { exStragglerVote with height := 3 } =
      .ok (exStateNewHeight, false, some .heightMismatch)) := by
  refine ⟨?_, ?_, ?_⟩
  · exact ((claim_C8 exStateNewHeight exStragglerVote 0).1 (by decide) (by decide)
      (by decide) exLastCommit rfl (by decide) (by decide) (by decide) (by decide)).1
  · exact (claim_C8 { exStateNewHeight with Step := .NewRound } exStragglerVote 0).2.1
      (by decide) (by decide)
  · exact (claim_C8 exStateNewHeight { exStragglerVote with height := 3 } 0).2.2
      (by decide) (by decide)

theorem plFrame_refl (s : ConsensusState) : plFrame s s :=
  ⟨rfl, rfl, rfl, rfl, rfl, rfl, rfl, rfl, rfl⟩

theorem plFrame_trans {a b c : ConsensusState} (h1 : plFrame a b) (h2 : plFrame b c) :
    plFrame a c :=
  ⟨h2.1.trans h1.1, h2.2.1.trans h1.2.1, h2.2.2.1.trans h1.2.2.1,
   h2.2.2.2.1.trans h1.2.2.2.1, h2.2.2.2.2.1.trans h1.2.2.2.2.1,
   h2.2.2.2.2.2.1.trans h1.2.2.2.2.2.1, h2.2.2.2.2.2.2.1.trans h1.2.2.2.2.2.2.1,
   h2.2.2.2.2.2.2.2.1.trans h1.2.2.2.2.2.2.2.1,
   h2.2.2.2.2.2.2.2.2.trans h1.2.2.2.2.2.2.2.2⟩

theorem plFrame_sendInternalMessage (s : ConsensusState) (m : InternalMsg) :
    plFrame s (s.sendInternalMessage m) :=
  ⟨rfl, rfl, rfl, rfl, rfl, rfl, rfl, rfl, rfl⟩

theorem plFrame_scheduleTimeout (s : ConsensusState) (d : Int) (h r : Nat)
    (st : RoundStepType) : plFrame s (s.scheduleTimeout d h r st) :=
  ⟨rfl, rfl, rfl, rfl, rfl, rfl, rfl, rfl, rfl⟩

theorem plFrame_updateRoundStep (s : ConsensusState) (r : Nat) (st : RoundStepType) :
    plFrame s (s.updateRoundStep r st) :=
  ⟨rfl, rfl, rfl, rfl, rfl, rfl, rfl, rfl, rfl⟩

theorem plFrame_newStep (s : ConsensusState) : plFrame s s.newStep :=
  ⟨rfl, rfl, rfl, rfl, rfl, rfl, rfl, rfl, rfl⟩

theorem plFrame_signAddVote (s : ConsensusState) (t : VoteType) (h : Option Nat)
    (hd : PartSetHeader) : plFrame s (s.signAddVote t h hd) := by
  unfold ConsensusState.signAddVote
  repeat' split
  all_goals exact ⟨rfl, rfl, rfl, rfl, rfl, rfl, rfl, rfl, rfl⟩

theorem ticks_signAddVote (s : ConsensusState) (t : VoteType) (h : Option Nat)
    (hd : PartSetHeader) : (s.signAddVote t h hd).ticks = s.ticks := by
  unfold ConsensusState.signAddVote
  repeat' split
  all_goals rfl

theorem plFrame_foldSend :
    ∀ (l : List Nat) (s : ConsensusState),
      plFrame s (l.foldl
        (fun acc i => acc.sendInternalMessage (.blockPartMsg acc.Height acc.Round i)) s) := by
  intro l
  induction l with
  | nil => intro s; exact plFrame_refl s
  | cons i rest ih =>
      intro s
      exact plFrame_trans (plFrame_sendInternalMessage s _) (ih _)

theorem ticks_foldSend :
    ∀ (l : List Nat) (s : ConsensusState),
      (l.foldl
        (fun acc i => acc.sendInternalMessage (.blockPartMsg acc.Height acc.Round i)) s).ticks =
        s.ticks := by
  intro l
  induction l with
  | nil => intro s; rfl
  | cons i rest ih => intro s; exact (ih _).trans rfl

theorem plFrame_sendPartMessages (s : ConsensusState) (n : Nat) :
    plFrame s (s.sendPartMessages n) :=
  plFrame_foldSend (List.range n) s

theorem ticks_sendPartMessages (s : ConsensusState) (n : Nat) :
    (s.sendPartMessages n).ticks = s.ticks :=
  ticks_foldSend (List.range n) s

theorem plFrame_decideProposal (s : ConsensusState) (h r : Nat) :
    plFrame s (s.decideProposal h r) := by
  unfold ConsensusState.decideProposal
  dsimp only
  repeat' split
  all_goals first
    | exact plFrame_refl s
    | exact plFrame_trans (plFrame_sendInternalMessage s _) (plFrame_sendPartMessages _ _)

theorem ticks_decideProposal (s : ConsensusState) (h r : Nat) :
    (s.decideProposal h r).ticks = s.ticks := by
  unfold ConsensusState.decideProposal
  dsimp only
  repeat' split
  all_goals first
    | rfl
    | exact (ticks_sendPartMessages _ _).trans rfl

theorem stageBlock_some (s : ConsensusState) (b : Block) (p : Option PartSet) :
    ∃ q, s.stageBlock (some b) p = .ok q ∧ plFrame s q.fst ∧
      q.fst.ticks = s.ticks ∧ q.fst.msgs = s.msgs ∧
      q.fst.Round = s.Round ∧ q.fst.Step = s.Step := by
  unfold ConsensusState.stageBlock
  dsimp only
  repeat' split
  all_goals exact ⟨_, rfl, ⟨rfl, rfl, rfl, rfl, rfl, rfl, rfl, rfl, rfl⟩, rfl, rfl, rfl, rfl⟩

theorem stageBlock_some_valid (s : ConsensusState) (b : Block) (p : Option PartSet)
    (hv : b.valid = true) :
    ∃ s1, s.stageBlock (some b) p = .ok (s1, true) ∧ plFrame s s1 ∧
      s1.ticks = s.ticks ∧ s1.msgs = s.msgs ∧
      s1.Round = s.Round ∧ s1.Step = s.Step ∧ s1.Height = s.Height := by
  unfold ConsensusState.stageBlock
  dsimp only
  repeat' split
  all_goals exact ⟨_, rfl, ⟨rfl, rfl, rfl, rfl, rfl, rfl, rfl, rfl, rfl⟩, rfl, rfl, rfl, rfl, rfl⟩

theorem doPrevote_total_frame (s : ConsensusState) (h r : Nat) :
    ∃ s2, s.doPrevote h r = .ok s2 ∧ plFrame s s2 ∧ s2.ticks = s.ticks := by
  unfold ConsensusState.doPrevote
  split
  · exact ⟨_, rfl, plFrame_signAddVote s _ _ _, ticks_signAddVote s _ _ _⟩
  · split
    · exact ⟨_, rfl, plFrame_signAddVote s _ _ _, ticks_signAddVote s _ _ _⟩
    · rename_i pb hpb
      obtain ⟨q, hq, hfr, hticks, _hmsgs, _, _⟩ := stageBlock_some s pb s.ProposalBlockParts
      rw [hq]
      dsimp only
      split
      · exact ⟨_, rfl, plFrame_trans hfr (plFrame_signAddVote q.fst _ _ _),
          (ticks_signAddVote q.fst _ _ _).trans hticks⟩
      · exact ⟨_, rfl, plFrame_trans hfr (plFrame_signAddVote q.fst _ _ _),
          (ticks_signAddVote q.fst _ _ _).trans hticks⟩

theorem EnterPrevote_total_frame (s : ConsensusState) (h r : Nat) :
    ∃ s2, s.EnterPrevote h r = .ok s2 ∧ plFrame s s2 ∧ s2.ticks = s.ticks := by
  unfold ConsensusState.EnterPrevote
  split
  · exact ⟨s, rfl, plFrame_refl s, rfl⟩
  · obtain ⟨s1, hs1, hfr, hticks⟩ := doPrevote_total_frame s h r
    rw [hs1]
    exact ⟨_, rfl,
      plFrame_trans hfr (plFrame_trans (plFrame_updateRoundStep s1 r .Prevote)
        (plFrame_newStep _)),
      hticks⟩

theorem EnterPropose_total_plFrame (s : ConsensusState) (h r : Nat) :
    ∃ s2, s.EnterPropose h r = .ok s2 ∧ plFrame s s2 ∧
      (s2.ticks = s.ticks ∨ s2.ticks = s.ticks ++
        [{ duration := timeoutPropose, height := h, round := r, step := .Propose }]) := by
  unfold ConsensusState.EnterPropose
  dsimp only
  split
  · exact ⟨s, rfl, plFrame_refl s, Or.inl rfl⟩
  · split
    · exact ⟨_, rfl,
        plFrame_trans (plFrame_scheduleTimeout s _ _ _ _)
          (plFrame_trans (plFrame_updateRoundStep _ r .Propose) (plFrame_newStep _)),
        Or.inr rfl⟩
    · rename_i pv hpv
      by_cases hprop :
        (match (s.scheduleTimeout timeoutPropose h r .Propose).Validators.proposer with
          | some p => decide (p.address = pv.address)
          | none => false) = true
      · rw [if_pos hprop]
        split
        · obtain ⟨s3, hs3, hfr3, hticks3⟩ := EnterPrevote_total_frame
            ((s.scheduleTimeout timeoutPropose h r .Propose).decideProposal h r) h
            ((s.scheduleTimeout timeoutPropose h r .Propose).decideProposal h r).Round
          rw [hs3]
          refine ⟨_, rfl, ?_, Or.inr ?_⟩
          · exact plFrame_trans (plFrame_scheduleTimeout s _ _ _ _)
              (plFrame_trans (plFrame_decideProposal _ h r)
                (plFrame_trans hfr3
                  (plFrame_trans (plFrame_updateRoundStep s3 r .Propose)
                    (plFrame_newStep _))))
          · show s3.ticks = _
            rw [hticks3, ticks_decideProposal]
            rfl
        · refine ⟨_, rfl, ?_, Or.inr ?_⟩
          · exact plFrame_trans (plFrame_scheduleTimeout s _ _ _ _)
              (plFrame_trans (plFrame_decideProposal _ h r)
                (plFrame_trans (plFrame_updateRoundStep _ r .Propose) (plFrame_newStep _)))
          · show ((s.scheduleTimeout timeoutPropose h r .Propose).decideProposal h r).ticks = _
            rw [ticks_decideProposal]
            rfl
      · rw [if_neg hprop]
        split
        · obtain ⟨s3, hs3, hfr3, hticks3⟩ := EnterPrevote_total_frame
            (s.scheduleTimeout timeoutPropose h r .Propose) h
            (s.scheduleTimeout timeoutPropose h r .Propose).Round
          rw [hs3]
          refine ⟨_, rfl, ?_, Or.inr ?_⟩
          · exact plFrame_trans (plFrame_scheduleTimeout s _ _ _ _)
              (plFrame_trans hfr3
                (plFrame_trans (plFrame_updateRoundStep s3 r .Propose) (plFrame_newStep _)))
          · show s3.ticks = _
            rw [hticks3]
            rfl
        · exact ⟨_, rfl,
            plFrame_trans (plFrame_scheduleTimeout s _ _ _ _)
              (plFrame_trans (plFrame_updateRoundStep _ r .Propose) (plFrame_newStep _)),
            Or.inr rfl⟩

/-- C6 (amended): on entering Propose for (height, round) past the entry guard,
the timeout scheduled for the propose step is the fixed constant timeoutPropose
(3000 ms), the same for every round — the source has no per-round increment for
the propose timeout (only the prevote and precommit waits grow with the round). -/
theorem claim_C6_amended (s : ConsensusState) (h r : Nat)
    (hH : s.Height = h) (hR : s.Round ≤ r)
    (hS : s.Round = r → s.Step.toNat < RoundStepType.Propose.toNat) :
    ∃ s2, s.EnterPropose h r = .ok s2 ∧
      s2.ticks = s.ticks ++
        [{ duration := timeoutPropose, height := h, round := r, step := .Propose }] ∧
      timeoutPropose = 3000 := by
  have hguard : ¬ (s.Height ≠ h ∨ r < s.Round ∨
      (s.Round = r ∧ RoundStepType.Propose.toNat ≤ s.Step.toNat)) := by
    push_neg
    exact ⟨hH, by omega, fun he => hS he⟩
  unfold ConsensusState.EnterPropose
  rw [if_neg hguard]
  dsimp only
  split
  · exact ⟨_, rfl, rfl, rfl⟩
  · rename_i pv hpv
    by_cases hprop :
      (match (s.scheduleTimeout timeoutPropose h r .Propose).Validators.proposer with
        | some p => decide (p.address = pv.address)
        | none => false) = true
    · rw [if_pos hprop]
      split
      · obtain ⟨s3, hs3, _, hticks3⟩ := EnterPrevote_total_frame
          ((s.scheduleTimeout timeoutPropose h r .Propose).decideProposal h r) h
          ((s.scheduleTimeout timeoutPropose h r .Propose).decideProposal h r).Round
        rw [hs3]
        refine ⟨_, rfl, ?_, rfl⟩
        show s3.ticks = _
        rw [hticks3, ticks_decideProposal]
        rfl
      · refine ⟨_, rfl, ?_, rfl⟩
        show ((s.scheduleTimeout timeoutPropose h r .Propose).decideProposal h r).ticks = _
        rw [ticks_decideProposal]
        rfl
    · rw [if_neg hprop]
      split
      · obtain ⟨s3, hs3, _, hticks3⟩ := EnterPrevote_total_frame
          (s.scheduleTimeout timeoutPropose h r .Propose) h
          (s.scheduleTimeout timeoutPropose h r .Propose).Round
        rw [hs3]
        refine ⟨_, rfl, ?_, rfl⟩
        show s3.ticks = _
        rw [hticks3]
        rfl
      · exact ⟨_, rfl, rfl, rfl⟩

/-- C6 counterexample: the propose timeouts scheduled at rounds 0 and 1 of the
same height are both 3000 ms — there are no constants TimeoutPropose0 and
TimeoutProposeDelta > 0 with duration(r) = TimeoutPropose0 + TimeoutProposeDelta
at round 1, so the scheduled timeout does not grow with the round. -/
theorem claim_C6_counterexample :
    ¬ ∃ t0 delta : Int, 0 < delta ∧
      lastTickDuration (exStateProposeR0.EnterPropose 5 0) = some t0 ∧
      lastTickDuration (exStateProposeR1.EnterPropose 5 1) = some (t0 + delta) := by
  rintro ⟨t0, delta, hdelta, h0, h1⟩
  have e0 : lastTickDuration (exStateProposeR0.EnterPropose 5 0) = some 3000 := by decide
  have e1 : lastTickDuration (exStateProposeR1.EnterPropose 5 1) = some 3000 := by decide
  rw [e0] at h0
  rw [e1] at h1
  have ht0 : (3000 : Int) = t0 := Option.some.inj h0
  have ht1 : (3000 : Int) = t0 + delta := Option.some.inj h1
  omega

/-- Witness for C6 (amended) at round 1 of the concrete state. -/
theorem claim_C6_witness :
    ∃ s2, exStateProposeR1.EnterPropose 5 1 = .ok s2 ∧
      s2.ticks = exStateProposeR1.ticks ++
        [{ duration := timeoutPropose, height := 5, round := 1, step := .Propose }] ∧
      timeoutPropose = 3000 :=
  claim_C6_amended exStateProposeR1 5 1 (by decide) (by decide) (by decide)

/-- C7: a successful EnterNewRound(h, r) with r > 0 clears Proposal,
ProposalBlock and ProposalBlockParts while leaving LockedRound, LockedBlock and
LockedBlockParts unchanged (the lock persists across rounds of a height); for
r = 0 — necessarily round 0 of a new height, as the entry guard demands step
NewHeight there — it leaves the Proposal fields untouched, so parts received
early during NewHeight are preserved. -/
theorem claim_C7 (s : ConsensusState) (h r : Nat)
    (hguard : ¬ (s.Height ≠ h ∨ r < s.Round ∨ (s.Round = r ∧ s.Step ≠ .NewHeight))) :
    ∃ s2, s.EnterNewRound h r = .ok s2 ∧
      (r ≠ 0 → s2.Proposal = none ∧ s2.ProposalBlock = none ∧
        s2.ProposalBlockParts = none) ∧
      (r = 0 → s2.Proposal = s.Proposal ∧ s2.ProposalBlock = s.ProposalBlock ∧
        s2.ProposalBlockParts = s.ProposalBlockParts) ∧
      s2.LockedRound = s.LockedRound ∧ s2.LockedBlock = s.LockedBlock ∧
      s2.LockedBlockParts = s.LockedBlockParts := by
  unfold ConsensusState.EnterNewRound
  rw [if_neg hguard]
  dsimp only
  by_cases hr0 : r = 0
  · rw [if_pos hr0]
    obtain ⟨s2, hok, hfr, _⟩ := EnterPropose_total_plFrame _ h r
    rw [hok]
    refine ⟨s2, rfl, fun hcon => absurd hr0 hcon, fun _ => ?_, ?_, ?_, ?_⟩
    · exact ⟨hfr.2.1, hfr.2.2.1, hfr.2.2.2.1⟩
    · exact hfr.2.2.2.2.1
    · exact hfr.2.2.2.2.2.1
    · exact hfr.2.2.2.2.2.2.1
  · rw [if_neg hr0]
    obtain ⟨s2, hok, hfr, _⟩ := EnterPropose_total_plFrame _ h r
    rw [hok]
    refine ⟨s2, rfl, fun _ => ?_, fun hcon => absurd hcon hr0, ?_, ?_, ?_⟩
    · exact ⟨hfr.2.1, hfr.2.2.1, hfr.2.2.2.1⟩
    · exact hfr.2.2.2.2.1
    · exact hfr.2.2.2.2.2.1
    · exact hfr.2.2.2.2.2.2.1

/-- Witness for C7: entering round 1 from a locked state clears the Proposal
fields and keeps the lock; entering round 0 from step NewHeight preserves the
early round-0 proposal data. -/
theorem claim_C7_witness :
    (∃ s2, exStateLockedRound0.EnterNewRound 5 1 = .ok s2 ∧
      (1 ≠ 0 → s2.Proposal = none ∧ s2.ProposalBlock = none ∧
        s2.ProposalBlockParts = none) ∧
      (1 = 0 → s2.Proposal = exStateLockedRound0.Proposal ∧
        s2.ProposalBlock = exStateLockedRound0.ProposalBlock ∧
        s2.ProposalBlockParts = exStateLockedRound0.ProposalBlockParts) ∧
      s2.LockedRound = exStateLockedRound0.LockedRound ∧
      s2.LockedBlock = exStateLockedRound0.LockedBlock ∧
      s2.LockedBlockParts = exStateLockedRound0.LockedBlockParts) ∧
    (∃ s2, exStateNewHeightWithParts.EnterNewRound 5 0 = .ok s2 ∧
      (0 ≠ 0 → s2.Proposal = none ∧ s2.ProposalBlock = none ∧
        s2.ProposalBlockParts = none) ∧
      (0 = 0 → s2.Proposal = exStateNewHeightWithParts.Proposal ∧
        s2.ProposalBlock = exStateNewHeightWithParts.ProposalBlock ∧
        s2.ProposalBlockParts = exStateNewHeightWithParts.ProposalBlockParts) ∧
      s2.LockedRound = exStateNewHeightWithParts.LockedRound ∧
      s2.LockedBlock = exStateNewHeightWithParts.LockedBlock ∧
      s2.LockedBlockParts = exStateNewHeightWithParts.LockedBlockParts) :=
  ⟨claim_C7 exStateLockedRound0 5 1 (by decide),
   claim_C7 exStateNewHeightWithParts 5 0 (by decide)⟩

theorem polRoundAux_zero (hvs : HeightVoteSet) :
    hvs.polRoundAux 0 = if (hvs.prevotes 0).hasTwoThirdsMajority then 0 else -1 := rfl

theorem polRoundAux_succ (hvs : HeightVoteSet) (n : Nat) :
    hvs.polRoundAux (n + 1) =
      if (hvs.prevotes (n + 1)).hasTwoThirdsMajority then ((n : Int) + 1)
      else hvs.polRoundAux n := rfl

theorem polRoundAux_ge (hvs : HeightVoteSet) (r : Nat)
    (hmaj : (hvs.prevotes r).hasTwoThirdsMajority = true) :
    ∀ n, r ≤ n → (r : Int) ≤ hvs.polRoundAux n := by
  intro n
  induction n with
  | zero =>
      intro h0
      have hr : r = 0 := Nat.le_zero.mp h0
      subst hr
      rw [polRoundAux_zero, if_pos hmaj]
      simp
  | succ n ih =>
      intro hrn
      rw [polRoundAux_succ]
      by_cases hm : (hvs.prevotes (n + 1)).hasTwoThirdsMajority = true
      · rw [if_pos hm]
        omega
      · rw [if_neg hm]
        have hrn2 : r ≤ n := by
          rcases Nat.lt_or_ge r (n + 1) with hlt | hge
          · omega
          · exfalso
            have heq : r = n + 1 := by omega
            exact hm (heq ▸ hmaj)
        exact ih hrn2

theorem polRound_ge (hvs : HeightVoteSet) (r : Nat) (hr : r ≤ hvs.round)
    (hmaj : (hvs.prevotes r).hasTwoThirdsMajority = true) :
    (r : Int) ≤ hvs.polRound :=
  polRoundAux_ge hvs r hmaj hvs.round hr

theorem signAddVote_eq (s : ConsensusState) (pv : PrivVal) (idx : Nat)
    (hpv : s.privValidator = some pv)
    (hidx : s.Validators.indexOfAddress pv.address = some idx)
    (hok : pv.signOk = true) (t : VoteType) (hh : Option Nat) (hd : PartSetHeader) :
    s.signAddVote t hh hd = s.sendInternalMessage (.voteMsg idx
      { height := s.Height, round := s.Round, vtype := t
        blockHash := hh, partsHeader := hd }) := by
  unfold ConsensusState.signAddVote
  rw [hpv]
  dsimp only
  rw [hidx]
  dsimp only
  rw [if_pos hok]

/-- C1 (amended): for a call EnterPrecommit(h, r) past its entry guard, with M
the two-thirds majority of the round-r prevotes: if M is absent the validator
precommits nil leaving the lock and proposal fields unchanged; if M is nil it
unlocks (LockedRound 0, LockedBlock and LockedBlockParts nil) and precommits
nil; if M is the locked block's hash it relocks at round r and precommits M; if
M is the proposal block's hash and the block validates it locks onto the
proposal block at round r and precommits M; otherwise it unlocks and precommits
nil, and — only when the ProposalBlockParts header differs from M's
PartSetHeader — clears ProposalBlock and replaces ProposalBlockParts by a fresh
part set built from M's PartSetHeader, leaving them both untouched when the
header already matches. -/
theorem claim_C1_amended (s : ConsensusState) (h r : Nat) (pv : PrivVal) (idx : Nat)
    (hH : s.Height = h) (hR : s.Round ≤ r)
    (hS : s.Round = r → s.Step.toNat < RoundStepType.Precommit.toNat)
    (hpv : s.privValidator = some pv)
    (hidx : s.Validators.indexOfAddress pv.address = some idx)
    (hsign : pv.signOk = true)
    (hhvs : r ≤ s.Votes.round)
    (hinv : s.LockedBlock = none → s.LockedRound = 0 ∧ s.LockedBlockParts = none) :
    ((s.Votes.prevotes r).twoThirdsMajority = none →
      ∃ s2, s.EnterPrecommit h r = .ok s2 ∧
        s2.LockedRound = s.LockedRound ∧ s2.LockedBlock = s.LockedBlock ∧
        s2.LockedBlockParts = s.LockedBlockParts ∧
        s2.ProposalBlock = s.ProposalBlock ∧
        s2.ProposalBlockParts = s.ProposalBlockParts ∧
        s2.msgs = s.msgs ++ [.voteMsg idx
          { height := s.Height, round := s.Round, vtype := .precommit
            blockHash := none, partsHeader := { total := 0, hash := 0 } }]) ∧
    (∀ ph, (s.Votes.prevotes r).twoThirdsMajority = some (none, ph) →
      ∃ s2, s.EnterPrecommit h r = .ok s2 ∧
        s2.LockedRound = 0 ∧ s2.LockedBlock = none ∧ s2.LockedBlockParts = none ∧
        s2.msgs = s.msgs ++ [.voteMsg idx
          { height := s.Height, round := s.Round, vtype := .precommit
            blockHash := none, partsHeader := { total := 0, hash := 0 } }]) ∧
    (∀ mh ph, (s.Votes.prevotes r).twoThirdsMajority = some (some mh, ph) →
      Block.hashesTo s.LockedBlock (some mh) = true →
      ∃ s2, s.EnterPrecommit h r = .ok s2 ∧
        s2.LockedRound = r ∧ s2.LockedBlock = s.LockedBlock ∧
        s2.LockedBlockParts = s.LockedBlockParts ∧
        s2.msgs = s.msgs ++ [.voteMsg idx
          { height := s.Height, round := s.Round, vtype := .precommit
            blockHash := some mh, partsHeader := ph }]) ∧
    (∀ mh ph pb, (s.Votes.prevotes r).twoThirdsMajority = some (some mh, ph) →
      Block.hashesTo s.LockedBlock (some mh) = false →
      s.ProposalBlock = some pb →
      Block.hashesTo s.ProposalBlock (some mh) = true → pb.valid = true →
      ∃ s2, s.EnterPrecommit h r = .ok s2 ∧
        s2.LockedRound = r ∧ s2.LockedBlock = s.ProposalBlock ∧
        s2.LockedBlockParts = s.ProposalBlockParts ∧
        s2.msgs = s.msgs ++ [.voteMsg idx
          { height := s.Height, round := s.Round, vtype := .precommit
            blockHash := some mh, partsHeader := ph }]) ∧
    (∀ mh ph, (s.Votes.prevotes r).twoThirdsMajority = some (some mh, ph) →
      Block.hashesTo s.LockedBlock (some mh) = false →
      Block.hashesTo s.ProposalBlock (some mh) = false →
      ∃ s2, s.EnterPrecommit h r = .ok s2 ∧
        s2.LockedRound = 0 ∧ s2.LockedBlock = none ∧ s2.LockedBlockParts = none ∧
        (PartSet.hasHeaderOpt s.ProposalBlockParts ph = true →
          s2.ProposalBlock = s.ProposalBlock ∧
          s2.ProposalBlockParts = s.ProposalBlockParts) ∧
        (PartSet.hasHeaderOpt s.ProposalBlockParts ph = false →
          s2.ProposalBlock = none ∧
          s2.ProposalBlockParts = some (newPartSetFromHeader ph)) ∧
        s2.msgs = s.msgs ++ [.voteMsg idx
          { height := s.Height, round := s.Round, vtype := .precommit
            blockHash := none, partsHeader := { total := 0, hash := 0 } }]) := by
  have hguard : ¬ (s.Height ≠ h ∨ r < s.Round ∨
      (s.Round = r ∧ RoundStepType.Precommit.toNat ≤ s.Step.toNat)) := by
    push_neg
    exact ⟨hH, by omega, fun he => hS he⟩
  refine ⟨?_, ?_, ?_, ?_, ?_⟩
  · intro hmaj
    unfold ConsensusState.EnterPrecommit ConsensusState.enterPrecommitBody
    rw [if_neg hguard, hmaj]
    dsimp only
    rw [signAddVote_eq s pv idx hpv hidx hsign]
    exact ⟨_, rfl, rfl, rfl, rfl, rfl, rfl, rfl⟩
  · intro ph hmaj
    have hmaj2 : (s.Votes.prevotes r).hasTwoThirdsMajority = true := by
      simp [VoteSet.hasTwoThirdsMajority, hmaj]
    have hpol : ¬ s.Votes.polRound < (r : Int) :=
      Int.not_lt.mpr (polRound_ge s.Votes r hhvs hmaj2)
    unfold ConsensusState.EnterPrecommit ConsensusState.enterPrecommitBody
    rw [if_neg hguard, hmaj]
    dsimp only
    rw [if_neg hpol]
    by_cases hlb : s.LockedBlock = none
    · rw [if_pos hlb]
      rw [signAddVote_eq s pv idx hpv hidx hsign]
      exact ⟨_, rfl, (hinv hlb).1, hlb, (hinv hlb).2, rfl⟩
    · rw [if_neg hlb]
      have hpv1 : ({ s with LockedRound := 0, LockedBlock := none, LockedBlockParts := none } : ConsensusState).privValidator = some pv := hpv
      have hidx1 : ({ s with LockedRound := 0, LockedBlock := none, LockedBlockParts := none } : ConsensusState).Validators.indexOfAddress pv.address = some idx := hidx
      rw [signAddVote_eq _ pv idx hpv1 hidx1 hsign]
      exact ⟨_, rfl, rfl, rfl, rfl, rfl⟩
  · intro mh ph hmaj hcl
    have hmaj2 : (s.Votes.prevotes r).hasTwoThirdsMajority = true := by
      simp [VoteSet.hasTwoThirdsMajority, hmaj]
    have hpol : ¬ s.Votes.polRound < (r : Int) :=
      Int.not_lt.mpr (polRound_ge s.Votes r hhvs hmaj2)
    unfold ConsensusState.EnterPrecommit ConsensusState.enterPrecommitBody
    rw [if_neg hguard, hmaj]
    dsimp only
    rw [if_neg hpol, if_pos hcl]
    have hpv1 : ({ s with LockedRound := r } : ConsensusState).privValidator =
      some pv := hpv
    have hidx1 : ({ s with LockedRound := r } : ConsensusState).Validators.indexOfAddress
      pv.address = some idx := hidx
    rw [signAddVote_eq _ pv idx hpv1 hidx1 hsign]
    exact ⟨_, rfl, rfl, rfl, rfl, rfl⟩
  · intro mh ph pb hmaj hcl hpb hcp hvalid
    have hmaj2 : (s.Votes.prevotes r).hasTwoThirdsMajority = true := by
      simp [VoteSet.hasTwoThirdsMajority, hmaj]
    have hpol : ¬ s.Votes.polRound < (r : Int) :=
      Int.not_lt.mpr (polRound_ge s.Votes r hhvs hmaj2)
    unfold ConsensusState.EnterPrecommit ConsensusState.enterPrecommitBody
    rw [if_neg hguard, hmaj]
    dsimp only
    rw [if_neg hpol, if_neg (by rw [hcl]; exact Bool.false_ne_true), if_pos hcp, hpb]
    obtain ⟨s1, hst, hfr, hticks, hmsgs, hRound, hStep, hHeight⟩ :=
      stageBlock_some_valid s pb s.ProposalBlockParts hvalid
    rw [hst]
    dsimp only
    have hpv1 : ({ s1 with LockedRound := r, LockedBlock := s1.ProposalBlock, LockedBlockParts := s1.ProposalBlockParts } : ConsensusState).privValidator = some pv := by
      show s1.privValidator = some pv
      rw [hfr.2.2.2.2.2.2.2.1]
      exact hpv
    have hidx1 : ({ s1 with LockedRound := r, LockedBlock := s1.ProposalBlock, LockedBlockParts := s1.ProposalBlockParts } : ConsensusState).Validators.indexOfAddress pv.address = some idx := by
      show s1.Validators.indexOfAddress pv.address = some idx
      rw [hfr.2.2.2.2.2.2.2.2]
      exact hidx
    rw [signAddVote_eq _ pv idx hpv1 hidx1 hsign]
    refine ⟨_, rfl, rfl, ?_, ?_, ?_⟩
    · show s1.ProposalBlock = some pb
      rw [hfr.2.2.1]
      exact hpb
    · show s1.ProposalBlockParts = s.ProposalBlockParts
      exact hfr.2.2.2.1
    · show s1.msgs ++ [InternalMsg.voteMsg idx { height := s1.Height, round := s1.Round, vtype := VoteType.precommit, blockHash := some mh, partsHeader := ph }] = s.msgs ++ [InternalMsg.voteMsg idx { height := s.Height, round := s.Round, vtype := VoteType.precommit, blockHash := some mh, partsHeader := ph }]
      rw [hmsgs, hHeight, hRound]
  · intro mh ph hmaj hcl hcp
    have hmaj2 : (s.Votes.prevotes r).hasTwoThirdsMajority = true := by
      simp [VoteSet.hasTwoThirdsMajority, hmaj]
    have hpol : ¬ s.Votes.polRound < (r : Int) :=
      Int.not_lt.mpr (polRound_ge s.Votes r hhvs hmaj2)
    unfold ConsensusState.EnterPrecommit ConsensusState.enterPrecommitBody
    rw [if_neg hguard, hmaj]
    dsimp only
    rw [if_neg hpol, if_neg (by rw [hcl]; exact Bool.false_ne_true),
      if_neg (by rw [hcp]; exact Bool.false_ne_true)]
    by_cases hhd : PartSet.hasHeaderOpt s.ProposalBlockParts ph = true
    · rw [if_pos hhd]
      have hpv1 : ({ s with LockedRound := 0, LockedBlock := none, LockedBlockParts := none } : ConsensusState).privValidator = some pv := hpv
      have hidx1 : ({ s with LockedRound := 0, LockedBlock := none, LockedBlockParts := none } : ConsensusState).Validators.indexOfAddress pv.address = some idx := hidx
      rw [signAddVote_eq _ pv idx hpv1 hidx1 hsign]
      exact ⟨_, rfl, rfl, rfl, rfl, fun _ => ⟨rfl, rfl⟩,
        fun hcon => absurd hhd (by rw [hcon]; exact Bool.false_ne_true), rfl⟩
    · rw [if_neg hhd]
      have hpv1 : ({ s with LockedRound := 0, LockedBlock := none, LockedBlockParts := none, ProposalBlock := none, ProposalBlockParts := some (newPartSetFromHeader ph) } : ConsensusState).privValidator = some pv := hpv
      have hidx1 : ({ s with LockedRound := 0, LockedBlock := none, LockedBlockParts := none, ProposalBlock := none, ProposalBlockParts := some (newPartSetFromHeader ph) } : ConsensusState).Validators.indexOfAddress pv.address = some idx := hidx
      rw [signAddVote_eq _ pv idx hpv1 hidx1 hsign]
      exact ⟨_, rfl, rfl, rfl, rfl,
        fun hcon => absurd hcon hhd, fun _ => ⟨rfl, rfl⟩, rfl⟩

/-- C1 (counterexample to the unconditional reset): in exStatePolkaUnknown the
round-1 polka is for hash 5 with parts header (1, 77), which matches neither
the locked block (hash 3) nor the proposal block (hash 9), so EnterPrecommit 5 1
takes the final unlock branch; yet because the held ProposalBlockParts already
has header (1, 77), the parts are left as they are (count 1), not replaced by a
fresh empty part set as the spec states, and ProposalBlock is not cleared. -/
theorem claim_C1_counterexample :
    (resultState (exStatePolkaUnknown.EnterPrecommit 5 1)).map
      ConsensusState.ProposalBlockParts
      = some (some { header := { total := 1, hash := 77 }, partsCount := 1 }) ∧
    (resultState (exStatePolkaUnknown.EnterPrecommit 5 1)).map
      ConsensusState.ProposalBlock
      = some exStatePolkaUnknown.ProposalBlock ∧
    some { header := { total := 1, hash := 77 }, partsCount := 1 }
      ≠ some (newPartSetFromHeader { total := 1, hash := 77 }) := by
  exact ⟨by decide, by decide, by decide⟩

/-- Witness for claim_C1_amended: at exStateNilPolka (unlocked, nil polka at
round 1) the amended theorem's nil-majority case applies, giving a successful
EnterPrecommit 5 1 that stays unlocked and precommits nil. -/
theorem claim_C1_witness :
    ∃ s2, exStateNilPolka.EnterPrecommit 5 1 = Except.ok s2 ∧
      s2.LockedRound = 0 ∧ s2.LockedBlock = none ∧ s2.LockedBlockParts = none ∧
      s2.msgs = exStateNilPolka.msgs ++ [.voteMsg 0
        { height := 5, round := 1, vtype := .precommit
          blockHash := none, partsHeader := { total := 0, hash := 0 } }] := by
  have h := (claim_C1_amended exStateNilPolka 5 1 { address := 7, signOk := true } 0
    (by decide) (by decide) (by decide) (by decide) (by decide) (by decide)
    (by decide) (by decide)).2.1
  exact h { total := 0, hash := 0 } (by decide)

end Tendermint
